import Mathlib

/-!
Verification of the SlideGen core (document tree, Markdown parser, layout
catalog, slide synthesis) against its natural-language specification.

Each definition below is a shallow embedding of a function of the Python
source, translated statement by statement; the source file and line range
is recorded in the doc comment.  Machine integers are modelled as `Int` /
`Nat` (no overflow is possible at the sizes involved), Python `None` as
`Option`, raised exceptions as `Except`, and Python loops that the source
does not obviously terminate as fuelled recursion.
-/

namespace SlideGen

/-! ## JSON values

The layout catalog is persisted with Python's `json` module
(`components.py`, `load_from_json` / `save_to_json`).  A JSON value is
modelled as the tree below; `json.dump` followed by `json.load` is the
identity on such trees (the `json` module is an external library and is
not re-verified here), so the file round trip reduces to the dictionary
round trip performed by `to_dict` / `from_dict`.  A Python `dict` is
modelled as an association list in insertion order with pairwise distinct
keys. -/

inductive Json where
  | null : Json
  | str : String → Json
  | num : Int → Json
  | arr : List Json → Json
  | obj : List (String × Json) → Json

/-- Python `d.get(k)`: the value stored under key `k`, if present. -/
def jGet (kv : List (String × Json)) (k : String) : Option Json :=
  (kv.find? (fun p => p.1 == k)).map (fun p => p.2)

/-- Python `d.get(k, default)` where the stored value is an int
(`Location.from_dict` reads `loc.get("x", 0)` and so on). -/
def jGetInt (kv : List (String × Json)) (k : String) (d : Int) : Int :=
  match jGet kv k with
  | some (.num n) => n
  | _ => d

/-- Python `d.get(k)` for a nullable string field (`xml`, `content_type`,
`path`): JSON `null` (Python `None`) and a missing key both give `none`. -/
def jGetStr (kv : List (String × Json)) (k : String) : Option String :=
  match jGet kv k with
  | some (.str s) => some s
  | _ => none

/-- Python `d.get(k, [])` for a list-valued field (`location`). -/
def jGetArr (kv : List (String × Json)) (k : String) : List Json :=
  match jGet kv k with
  | some (.arr l) => l
  | _ => []

/-- View of a JSON value as an object; `.items()` of anything else is not
reached on the round-trip path. -/
def jObjOf : Json → List (String × Json)
  | .obj kv => kv
  | _ => []

/-- Python dict assignment `d[k] = v`: an existing key keeps its position
and gets the new value, a fresh key is appended at the end. -/
def dictInsert {α : Type} (d : List (String × α)) (k : String) (v : α) :
    List (String × α) :=
  if d.any (fun p => p.1 == k) then
    d.map (fun p => if p.1 == k then (k, v) else p)
  else
    d ++ [(k, v)]

/-- Encoding of `None` / `str` fields when building a dict
(`CShape.to_dict` stores `self.xml` which is `str | None`). -/
def optStrJson : Option String → Json
  | none => .null
  | some s => .str s

/-! ## Layout catalog data model (`core/pptgen/components.py`) -/

/-- Placement rectangle of a shape (`components.py` lines 73-80,
`@dataclass Location`). -/
structure Location where
  x : Int
  y : Int
  width : Int
  height : Int
deriving DecidableEq

/-- Catalog shape record (`components.py` lines 83-91, `@dataclass
CShape`): serialized template fragment (nullable), z-order, content-type
tag, picture path, placement rectangles. -/
structure CShape where
  xml : Option String
  zorder : Int
  content_type : Option String
  path : Option String
  location : List Location
deriving DecidableEq

/-- Embedding of `Location` serialization inside `CShape.to_dict`
(`components.py` lines 110-121). -/
def Location.to_dict (l : Location) : Json :=
  .obj [("x", .num l.x), ("y", .num l.y),
        ("width", .num l.width), ("height", .num l.height)]

/-- Embedding of the `Location(...)` construction inside
`CShape.from_dict` (`components.py` lines 96-100): each coordinate read
with `loc.get(key, 0)`. -/
def Location.from_dict (j : Json) : Location :=
  { x := jGetInt (jObjOf j) "x" 0,
    y := jGetInt (jObjOf j) "y" 0,
    width := jGetInt (jObjOf j) "width" 0,
    height := jGetInt (jObjOf j) "height" 0 }

/-- Embedding of `CShape.to_dict` (`components.py` lines 110-121). -/
def CShape.to_dict (s : CShape) : Json :=
  .obj [("xml", optStrJson s.xml),
        ("zorder", .num s.zorder),
        ("content_type", optStrJson s.content_type),
        ("path", optStrJson s.path),
        ("location", .arr (s.location.map Location.to_dict))]

/-- Embedding of `CShape.from_dict` (`components.py` lines 93-108):
`data.get("xml")`, `data.get("zorder", 0)`, `data.get("content_type")`,
`data.get("path")`, and the loop over `data.get("location", [])`. -/
def CShape.from_dict (j : Json) : CShape :=
  { xml := jGetStr (jObjOf j) "xml",
    zorder := jGetInt (jObjOf j) "zorder" 0,
    content_type := jGetStr (jObjOf j) "content_type",
    path := jGetStr (jObjOf j) "path",
    location := (jGetArr (jObjOf j) "location").map Location.from_dict }

/-- Shape dictionary of a `Style` (`components.py` line 129,
`self.shapes: dict[str, CShape]`).  The `name` attribute duplicates the
dict key and is not serialized, so it is kept only as the key. -/
abbrev StyleShapes : Type := List (String × CShape)

/-- Style dictionary of a `LayoutType` (`components.py` line 172,
`self.styles: dict[str, Style]`).  The derived `style_order` cache set by
`load_from_dict` for the key `"style_ordered"` is not serialized by
`to_dict` and does not take part in the round trip. -/
abbrev LayoutStyles : Type := List (String × StyleShapes)

/-- Layout dictionary of the `ComponentsManager` (`components.py` line
215, `self.layout_types: dict[str, LayoutType]`). -/
abbrev Catalog : Type := List (String × LayoutStyles)

/-- Embedding of `Style.load_from_dict` (`components.py` lines 134-136):
`self.shapes[shape_name] = CShape.from_dict(shape_data)` over the items
of `shapes_data`, starting from the empty dict of the constructor. -/
def Style.load_from_dict (shapes_data : List (String × Json)) : StyleShapes :=
  shapes_data.foldl (fun st p => dictInsert st p.1 (CShape.from_dict p.2)) []

/-- Embedding of `Style.to_dict` (`components.py` lines 138-142):
`result[shape_name] = shape.to_dict()` over `self.shapes` builds the
object in insertion order. -/
def Style.to_dict (st : StyleShapes) : Json :=
  .obj (st.map (fun p => (p.1, p.2.to_dict)))

/-- Embedding of `LayoutType.load_from_dict` (`components.py` lines
178-183): `self.styles[style_name] = Style(style_name, style_data)` over
the items of `data`. -/
def LayoutType.load_from_dict (data : List (String × Json)) : LayoutStyles :=
  data.foldl (fun st p => dictInsert st p.1 (Style.load_from_dict (jObjOf p.2))) []

/-- Embedding of `LayoutType.to_dict` (`components.py` lines 185-190). -/
def LayoutType.to_dict (ls : LayoutStyles) : Json :=
  .obj (ls.map (fun p => (p.1, Style.to_dict p.2)))

/-- Embedding of `ComponentsManager.save_to_json` (`components.py` lines
228-234): `data[layout_name] = layout.to_dict()` over `self.layout_types`,
then `json.dump` (identity at the value level). -/
def ComponentsManager.save_to_json (c : Catalog) : Json :=
  .obj (c.map (fun p => (p.1, LayoutType.to_dict p.2)))

/-- Embedding of `ComponentsManager.load_from_json` (`components.py`
lines 221-226): `json.load` (identity at the value level), then
`self.layout_types[layout_name] = LayoutType(layout_name, layout_data)`
over the items, starting from the empty dict of the constructor. -/
def ComponentsManager.load_from_json (j : Json) : Catalog :=
  (jObjOf j).foldl
    (fun acc p => dictInsert acc p.1 (LayoutType.load_from_dict (jObjOf p.2))) []

/-- Well-formedness of a catalog: keys are pairwise distinct at every
level, as is automatic for the Python `dict`s the catalog lives in. -/
def CatalogWF (c : Catalog) : Prop :=
  (c.map Prod.fst).Nodup ∧
    ∀ p ∈ c, (p.2.map Prod.fst).Nodup ∧ ∀ q ∈ p.2, (q.2.map Prod.fst).Nodup


/-! ## Shape XML model (`core/pptgen/components.py`, `are_same_shape` and
`add_style_from_slide`)

The shapes handled by `ComponentsManager` are `lxml` element trees.  An
element is modelled by its resolved tag (written with its namespace
prefix, e.g. `"a:xfrm"`, standing for the prefix resolution `lxml`
performs through `root.nsmap`), its attribute list in document order, its
text, and its children.  `etree.fromstring` is the external parser: a
well-formed shape XML string corresponds to `some tree`, a Python `None`
argument (which makes `etree.fromstring` raise, caught by the
`except Exception` handler of `are_same_shape`) to `none`. -/

inductive Xml where
  | elem (tag : String) (attrs : List (String × String)) (text : Option String)
      (children : List Xml)

/-- Tag of an element. -/
def Xml.tag : Xml → String
  | .elem t _ _ _ => t

/-- Attribute serialization used by `etree.tostring` (attributes in
document order). -/
def serializeAttrs : List (String × String) → String
  | [] => ""
  | (k, v) :: rest => " " ++ k ++ "=" ++ "\"" ++ v ++ "\"" ++ serializeAttrs rest

mutual

/-- Embedding of `etree.tostring(root, encoding="unicode")`: a
deterministic rendering of the element tree. -/
def serializeXml : Xml → String
  | .elem tag attrs text children =>
    "<" ++ tag ++ serializeAttrs attrs ++ ">" ++ text.getD "" ++
      serializeForest children ++ "</" ++ tag ++ ">"

/-- Serialization of a child list in order. -/
def serializeForest : List Xml → String
  | [] => ""
  | c :: rest => serializeXml c ++ serializeForest rest

end

mutual

/-- Embedding of `root.find(".//tag")` followed by
`element.getparent().remove(element)` (`are_same_shape`, `components.py`
lines 288-295): remove the first descendant with the given tag, in
document order; the flag reports whether one was found. -/
def removeFirstDesc (tag : String) : Xml → Xml × Bool
  | .elem t a tx cs =>
    let r := removeFirstInForest tag cs
    (.elem t a tx r.1, r.2)

/-- Removal of the first match inside a child list. -/
def removeFirstInForest (tag : String) : List Xml → List Xml × Bool
  | [] => ([], false)
  | c :: rest =>
    if c.tag == tag then (rest, true)
    else
      let r := removeFirstDesc tag c
      if r.2 then (r.1 :: rest, true)
      else
        let r2 := removeFirstInForest tag rest
        (c :: r2.1, r2.2)

end

mutual

/-- Embedding of `root.find(".//tag")` followed by in-place mutation of
the found element: apply `f` to the first descendant with the given tag,
in document order; the flag reports whether one was found. -/
def mapFirstDesc (tag : String) (f : Xml → Xml) : Xml → Xml × Bool
  | .elem t a tx cs =>
    let r := mapFirstInForest tag f cs
    (.elem t a tx r.1, r.2)

/-- Mutation of the first match inside a child list. -/
def mapFirstInForest (tag : String) (f : Xml → Xml) : List Xml → List Xml × Bool
  | [] => ([], false)
  | c :: rest =>
    if c.tag == tag then (f c :: rest, true)
    else
      let r := mapFirstDesc tag f c
      if r.2 then (r.1 :: rest, true)
      else
        let r2 := mapFirstInForest tag f rest
        (c :: r2.1, r2.2)

end

mutual

/-- Embedding of `root.findall(".//tag")` followed by `elem.text = txt`
on every hit (`are_same_shape`, `components.py` lines 306-313): set the
text of every strict descendant with the given tag. -/
def setTextsDesc (tag txt : String) : Xml → Xml
  | .elem t a tx cs => .elem t a tx (setTextsForest tag txt cs)

/-- Text replacement inside a child list (here a node and all of its
descendants are candidates). -/
def setTextsForest (tag txt : String) : List Xml → List Xml
  | [] => []
  | .elem t a tx cs :: rest =>
    .elem t a (if t == tag then some txt else tx) (setTextsForest tag txt cs) ::
      setTextsForest tag txt rest

end

mutual

/-- Embedding of `root.findall(".//tag")` followed by reading `t.text`
(`get_text_from_xml`, `components.py` lines 451-456); a `None` text is
read as the empty string (a shape with an empty run). -/
def collectTextsDesc (tag : String) : Xml → List String
  | .elem _ _ _ cs => collectTextsForest tag cs

/-- Text collection inside a child list, document order. -/
def collectTextsForest (tag : String) : List Xml → List String
  | [] => []
  | .elem t a tx cs :: rest =>
    (if t == tag then [tx.getD ""] else []) ++ collectTextsForest tag cs ++
      collectTextsForest tag rest

end

/-- Python `elem.set(k, v)`: an existing attribute keeps its position and
gets the new value, a fresh one is appended. -/
def setAttr (attrs : List (String × String)) (k v : String) :
    List (String × String) :=
  if attrs.any (fun p => p.1 == k) then
    attrs.map (fun p => if p.1 == k then (k, v) else p)
  else
    attrs ++ [(k, v)]

/-- Embedding of `cnvpr.set("id", "1"); cnvpr.set("name", "temp")`
(`are_same_shape`, `components.py` lines 300-304). -/
def setIdName : Xml → Xml
  | .elem t a tx cs => .elem t (setAttr (setAttr a "id" "1") "name" "temp") tx cs

/-- Embedding of `ComponentsManager.are_same_shape` (`components.py`
lines 271-322) on two parsed shape trees: remove the first `a:xfrm`
descendant of each, reset `id`/`name` on the first `p:cNvPr` descendants
when both trees have one, replace every `a:t` text with
`"placeholder_text"`, and compare the serializations. -/
def are_same_shape (r1 r2 : Xml) : Bool :=
  let s1 := (removeFirstDesc "a:xfrm" r1).1
  let s2 := (removeFirstDesc "a:xfrm" r2).1
  let found1 := (mapFirstDesc "p:cNvPr" setIdName s1).2
  let found2 := (mapFirstDesc "p:cNvPr" setIdName s2).2
  let u1 := if found1 && found2 then (mapFirstDesc "p:cNvPr" setIdName s1).1 else s1
  let u2 := if found1 && found2 then (mapFirstDesc "p:cNvPr" setIdName s2).1 else s2
  let v1 := setTextsDesc "a:t" "placeholder_text" u1
  let v2 := setTextsDesc "a:t" "placeholder_text" u2
  serializeXml v1 == serializeXml v2

/-- The string-level entry point of `are_same_shape`: a `None` (or
unparsable) argument makes `etree.fromstring` raise inside the
`try`, and the `except Exception` handler returns `False`
(`components.py` lines 283-284 and 320-322). -/
def are_same_shape_opt : Option Xml → Option Xml → Bool
  | some r1, some r2 => are_same_shape r1 r2
  | _, _ => false

/-! ## Style extraction merge pass (`add_style_from_slide`,
`components.py` lines 408-435)

The first pass of `add_style_from_slide` builds `shape_data_dict`, a dict
from shape name (`f"{shape.name}_{i}"`, names pairwise distinct because
`i` is the enumeration index) to a per-shape record; it is modelled as a
list in insertion order.  `area` is the maximum text-shape area observed
in the first pass. -/

structure SlideShapeData where
  name : String
  xml : Option Xml
  zorder : Int
  content_type : Option String
  path : Option String
  location : List Location

/-- Embedding of `ComponentsManager.get_text_from_xml` (`components.py`
lines 451-456). -/
def get_text_from_xml (r : Xml) : String :=
  String.join (collectTextsDesc "a:t" r)

/-- Python `str.isdigit` restricted to ASCII digits (the digits that
occur in the repository's shape texts): nonempty and all digits. -/
def pyIsdigit (s : String) : Bool :=
  !s.toList.isEmpty && s.toList.all Char.isDigit

/-- Embedding of the CONTENT refinement step inside the merge loop
(`components.py` lines 414-420): a CONTENT shape whose first recorded
rectangle is more than 10000 units smaller in area than the maximum is
reclassified to `"number"` (all-digit text) or `"title"`.  The guard of
the loop ensures `xml` is present, and the first pass stores exactly one
rectangle, so the `none`/`[]` fallbacks are unreachable. -/
def refineContentType (area : Int) (sd : SlideShapeData) : SlideShapeData :=
  if sd.content_type == some "content" then
    match sd.location, sd.xml with
    | loc :: _, some x =>
      if loc.height * loc.width < area - 10000 then
        if pyIsdigit (get_text_from_xml x) then
          { sd with content_type := some "number" }
        else
          { sd with content_type := some "title" }
      else sd
    | _, _ => sd
  else sd

/-- Embedding of one step of the inner merge loop (`components.py` lines
422-428): for the snapshot entry at position `j`, skip it when it is the
current entry itself (`shape_name == shape_name_other`) or its xml has
been nulled; otherwise, when `are_same_shape` holds, extend the current
entry's location list, null the other's xml, and record its name for
removal. -/
def innerStep (i : Nat) (st : List SlideShapeData × List String) (j : Nat) :
    List SlideShapeData × List String :=
  let l := st.1
  let rm := st.2
  match l.get? i, l.get? j with
  | some si, some sj =>
    if si.name == sj.name || sj.xml.isNone then st
    else if are_same_shape_opt si.xml sj.xml then
      (((l.set i { si with location := si.location ++ sj.location }).set j
        { sj with xml := none }), rm ++ [sj.name])
    else st
  | _, _ => st

/-- Embedding of one step of the outer merge loop (`components.py` lines
410-428): entries whose xml is already `None` are skipped; otherwise the
entry is refined and compared against the whole item snapshot. -/
def outerStep (area : Int) (st : List SlideShapeData × List String) (i : Nat) :
    List SlideShapeData × List String :=
  let l := st.1
  let rm := st.2
  match l.get? i with
  | none => st
  | some sd =>
    if sd.xml.isNone then st
    else
      let l2 := l.set i (refineContentType area sd)
      (List.range l2.length).foldl (innerStep i) (l2, rm)

/-- Embedding of the merge pass of `add_style_from_slide`
(`components.py` lines 408-432): the outer loop over the dict items, then
`shape_data_dict.pop(shape_name)` for the recorded names (a filter that
keeps the remaining items in order). -/
def merge_similar_shapes (area : Int) (l : List SlideShapeData) :
    List SlideShapeData :=
  let r := (List.range l.length).foldl (outerStep area) (l, [])
  r.1.filter (fun sd => !(r.2.contains sd.name))


/-- Abbreviation used to state the merge-pass theorems: the record the
inner loop leaves at a merged-away position (`xml` nulled). -/
def nulledShape (s : SlideShapeData) : SlideShapeData :=
  { s with xml := none }

/-- Abbreviation used to state the merge-pass theorems: the first
occurrence carrying its own location list plus those of the duplicates
processed so far. -/
def mergedShape (first : SlideShapeData) (done : List SlideShapeData) :
    SlideShapeData :=
  { first with location := first.location ++ (done.map (fun s => s.location)).join }


/-! ## Document tree model (`core/docparse/markdown_parser/elements.py`)

`Element` instances form a mutable graph; they are modelled as a heap of
objects addressed by allocation index.  Two Python facts are modelled
explicitly because the claims hinge on them:

* `elements.py` line 25 declares `contents: ListType[Type["Element"]] = []`
  — a single class-level list object.  `setup` never assigns an
  instance-level `contents`, so every `self.contents` read or in-place
  mutation (`self.contents.insert(...)`, `del self.parent.contents[i]`)
  that reaches an element without an instance attribute operates on that
  one shared list.  The heap therefore carries `classContents`, and each
  object an optional `instContents` (only ever created by `decompose`,
  which is outside the operations modelled here, so it stays `none`).

* The link attributes (`parent`, `previous_element`, `next_element`,
  `previous_sibling`, `next_sibling`) are declared only as annotations
  (lines 19-23), which create no attribute; they exist on an instance
  only once `setup` (or an assignment) has run.  `MarkdownDocument`
  never calls `setup`, so reading such an attribute on the document
  raises `AttributeError`.  A link field is therefore
  `Option (Option Nat)`: `none` = attribute absent (reading raises),
  `some v` = attribute present with value `v` (`v = none` is Python
  `None`). -/

inductive ElemKind where
  | document
  | heading (level : Nat) (text : String)
  | paragraph (text : String)
  | codeBlock (code : String) (language : Option String)
  | table (headers : List String)
  | picture (src : String) (alt_text : Option String) (title : Option String)
deriving DecidableEq

/-- One Python `Element` object.  `main` is the `MarkdownDocument.main`
attribute (set in `MarkdownDocument.__init__`, absent on other nodes). -/
structure ElemObj where
  kind : ElemKind
  parent : Option (Option Nat)
  previous_element : Option (Option Nat)
  next_element : Option (Option Nat)
  previous_sibling : Option (Option Nat)
  next_sibling : Option (Option Nat)
  instContents : Option (List Nat)
  main : Option (Option Nat)
deriving DecidableEq

/-- The object heap plus the single shared `Element.contents` class
attribute (a list of element ids). -/
structure Heap where
  objs : List ElemObj
  classContents : List Nat
deriving DecidableEq

/-- Python exceptions (and two model-internal signals). -/
inductive PyErr where
  | attributeError
  | valueError (msg : String)
  | typeError (msg : String)
  | exception (msg : String)
  | indexError
  | invalidRef
  | fuelExhausted
deriving DecidableEq

/-- State-and-exception monad the element operations live in. -/
abbrev PyM (α : Type) : Type := StateT Heap (Except PyErr) α

/-- Fetch an object (ids handed out by `allocObj` are always valid;
`invalidRef` is a model-internal guard). -/
def getObjM (i : Nat) : PyM ElemObj := do
  match (← get).objs.get? i with
  | some o => pure o
  | none => throw .invalidRef

/-- Replace an object in the heap. -/
def updObj (i : Nat) (f : ElemObj → ElemObj) : PyM Unit :=
  modify fun h =>
    match h.objs.get? i with
    | some o => { h with objs := h.objs.set i (f o) }
    | none => h

/-- Read a link attribute; absent attribute = `AttributeError`
(annotation-only class attributes, `elements.py` lines 19-23). -/
def readLink (f : ElemObj → Option (Option Nat)) (i : Nat) : PyM (Option Nat) := do
  match f (← getObjM i) with
  | none => throw .attributeError
  | some v => pure v

def readParent (i : Nat) : PyM (Option Nat) := readLink (fun o => o.parent) i

def readPrevElement (i : Nat) : PyM (Option Nat) :=
  readLink (fun o => o.previous_element) i

def readNextElement (i : Nat) : PyM (Option Nat) :=
  readLink (fun o => o.next_element) i

def readPrevSibling (i : Nat) : PyM (Option Nat) :=
  readLink (fun o => o.previous_sibling) i

def readNextSibling (i : Nat) : PyM (Option Nat) :=
  readLink (fun o => o.next_sibling) i

def setParent (i : Nat) (v : Option Nat) : PyM Unit :=
  updObj i (fun o => { o with parent := some v })

def setPrevElement (i : Nat) (v : Option Nat) : PyM Unit :=
  updObj i (fun o => { o with previous_element := some v })

def setNextElement (i : Nat) (v : Option Nat) : PyM Unit :=
  updObj i (fun o => { o with next_element := some v })

def setPrevSibling (i : Nat) (v : Option Nat) : PyM Unit :=
  updObj i (fun o => { o with previous_sibling := some v })

def setNextSibling (i : Nat) (v : Option Nat) : PyM Unit :=
  updObj i (fun o => { o with next_sibling := some v })

/-- Python attribute lookup for `self.contents`: the instance attribute
if one exists, else the shared class attribute (`elements.py` line 25). -/
def contentsOf (i : Nat) : PyM (List Nat) := do
  match (← getObjM i).instContents with
  | some l => pure l
  | none => pure (← get).classContents

/-- In-place mutation of the list object `self.contents` denotes: the
instance list when the instance attribute exists, else the shared class
list. -/
def mutateContents (i : Nat) (f : List Nat → List Nat) : PyM Unit := do
  match (← getObjM i).instContents with
  | some l => updObj i (fun o => { o with instContents := some (f l) })
  | none => modify fun h => { h with classContents := f h.classContents }

/-- Allocate a raw object with no attributes set (what `object.__init__`
leaves behind: `MarkdownDocument` never calls `setup`). -/
def allocObj (k : ElemKind) (mainAttr : Option (Option Nat)) : PyM Nat := do
  let h ← get
  set { h with objs := h.objs ++ [ElemObj.mk k none none none none none none mainAttr] }
  pure h.objs.length

/-- Embedding of `Element.setup()` as called (with every argument
defaulted) by the node constructors (`elements.py` lines 28-76): all five
link attributes are assigned `None`; the `previous_sibling` inference
from `self.parent.contents` is skipped because `parent` is `None`. -/
def setupDefault (i : Nat) : PyM Unit :=
  updObj i (fun o =>
    { o with
      parent := some none
      previous_element := some none
      next_element := some none
      previous_sibling := some none
      next_sibling := some none })

/-- Constructor of `Heading` / `Paragraph` / `CodeBlock` / `Table` /
`Picture` (each runs `self.setup()` then stores its payload). -/
def newElement (k : ElemKind) : PyM Nat := do
  let i ← allocObj k none
  setupDefault i
  pure i

/-- Constructor of `MarkdownDocument` (`markdown_parser/__init__.py`
lines 15-28): no `setup` call, `self.main = None`. -/
def newDocument : PyM Nat :=
  allocObj .document (some none)

/-- Embedding of `Element.index` (`elements.py` lines 138-146): position
of a child by identity, `ValueError` when absent. -/
def Element_index (self el : Nat) : PyM Nat := do
  match (← contentsOf self).findIdx? (fun c => c == el) with
  | some i => pure i
  | none => throw (.valueError "Element.index: child not in this Element.")

/-- The loop of `_last_descendant` (`elements.py` lines 242-244):
`while last_child.contents: last_child = last_child.contents[-1]`.  With
the shared `contents` list the loop need not terminate (an element that
is a member of its own `contents` view), hence the fuel. -/
def lastDescLoop (fuel : Nat) (cur : Nat) : PyM Nat := do
  match fuel with
  | 0 => throw .fuelExhausted
  | fuel + 1 =>
    match (← contentsOf cur).getLast? with
    | none => pure cur
    | some c => lastDescLoop fuel c

/-- Embedding of `Element._last_descendant` (`elements.py` lines
229-247). -/
def last_descendant (fuel : Nat) (self : Nat)
    (is_initialized accept_self : Bool) : PyM (Option Nat) := do
  let last_child : Option Nat ←
    if is_initialized then do
      match ← readNextSibling self with
      | some ns => readPrevElement ns
      | none => some <$> lastDescLoop fuel self
    else
      some <$> lastDescLoop fuel self
  if !accept_self && last_child == some self then
    pure none
  else
    pure last_child

/-- Embedding of `Element.extract` (`elements.py` lines 152-191) with
`_self_index = None`. -/
def Element_extract (fuel : Nat) (self : Nat) : PyM Nat := do
  match ← readParent self with
  | some p => do
    let i ← Element_index p self
    mutateContents p (fun l => l.eraseIdx i)
  | none => pure ()
  let lc_opt ← last_descendant fuel self true true
  let last_child ← match lc_opt with
    | some x => pure x
    | none => throw .attributeError
  let next_element ← readNextElement last_child
  let pe ← readPrevElement self
  match pe with
  | some pei =>
    if some pei ≠ next_element then setNextElement pei next_element else pure ()
  | none => pure ()
  match next_element with
  | some nei =>
    if some nei ≠ pe then setPrevElement nei pe else pure ()
  | none => pure ()
  setPrevElement self none
  setNextElement last_child none
  setParent self none
  let ps ← readPrevSibling self
  let ns ← readNextSibling self
  match ps with
  | some psi => if some psi ≠ ns then setNextSibling psi ns else pure ()
  | none => pure ()
  match ns with
  | some nsi => if some nsi ≠ ps then setPrevSibling nsi ps else pure ()
  | none => pure ()
  setPrevSibling self none
  setNextSibling self none
  pure self

/-- The ancestor walk of `_insert` (`elements.py` lines 310-316) that
finds the next sibling of the nearest ancestor carrying one. -/
def parentWalk (fuel : Nat) (cur : Option Nat) : PyM (Option Nat) := do
  match fuel with
  | 0 => throw .fuelExhausted
  | fuel + 1 =>
    match cur with
    | none => pure none
    | some p => do
      match ← readNextSibling p with
      | some x => pure (some x)
      | none => parentWalk fuel (← readParent p)

/-- Embedding of `Element._insert` and `Element.insert` (`elements.py`
lines 249-336) as one fuel-structural function (`.inl child` is
`_insert(position, child)`, `.inr children` the multi-insert loop of
`insert`, which `_insert` re-enters for the document-splice of lines
275-277).  The `None`-argument and raw-string guards of lines 268-273
concern values that are not element ids and cannot arise here. -/
def Element_insert_core (fuel : Nat) (self : Nat) (position : Nat) :
    Sum Nat (List Nat) → PyM (List Nat)
  | .inr [] => pure []
  | .inr (c :: rest) => do
    match fuel with
    | 0 => throw .fuelExhausted
    | fuel + 1 => do
      let ins ← Element_insert_core fuel self position (.inl c)
      let more ← Element_insert_core fuel self (position + 1) (.inr rest)
      pure (ins ++ more)
  | .inl new_child => do
    match fuel with
    | 0 => throw .fuelExhausted
    | fuel + 1 => do
      if new_child == self then
        throw (.valueError "Cannot insert a Element into itself.")
      if (← getObjM new_child).kind matches .document then
        Element_insert_core fuel self position (.inr (← contentsOf new_child))
      else do
        let position := min position (← contentsOf self).length
        let obj ← getObjM new_child
        let position ← do
          match obj.parent with
          | some (some par) => do
            if par == self then do
              let current_index ← Element_index self new_child
              if current_index < position then do
                let _ ← Element_extract fuel new_child
                pure (position - 1)
              else if current_index == position then
                return [new_child]
              else do
                let _ ← Element_extract fuel new_child
                pure position
            else do
              let _ ← Element_extract fuel new_child
              pure position
          | _ => pure position
        setParent new_child (some self)
        if position == 0 then do
          setPrevSibling new_child none
          setPrevElement new_child (some self)
        else do
          match (← contentsOf self).get? (position - 1) with
          | none => throw .indexError
          | some previous_child => do
            setPrevSibling new_child (some previous_child)
            setNextSibling previous_child (some new_child)
            let ld ← last_descendant fuel previous_child false true
            setPrevElement new_child ld
        match ← readPrevElement new_child with
        | some pei => setNextElement pei (some new_child)
        | none => pure ()
        let ncle_opt ← last_descendant fuel new_child false true
        let ncle ← match ncle_opt with
          | some x => pure x
          | none => throw .attributeError
        let cl ← contentsOf self
        if position ≥ cl.length then do
          setNextSibling new_child none
          let pns ← parentWalk fuel (some self)
          setNextElement ncle pns
        else do
          match cl.get? position with
          | none => throw .indexError
          | some next_child => do
            setNextSibling new_child (some next_child)
            setPrevSibling next_child (some new_child)
            setNextElement ncle (some next_child)
        match ← readNextElement ncle with
        | some nei => setPrevElement nei (some ncle)
        | none => pure ()
        mutateContents self (fun l => l.insertIdx position new_child)
        pure [new_child]

/-- Entry point `Element._insert` (`elements.py` line 267). -/
def Element_insert_one (fuel : Nat) (self : Nat) (position : Nat)
    (new_child : Nat) : PyM (List Nat) :=
  Element_insert_core fuel self position (.inl new_child)

/-- Entry point `Element.insert` (`elements.py` line 249). -/
def Element_insert (fuel : Nat) (self : Nat) (position : Nat)
    (children : List Nat) : PyM (List Nat) :=
  Element_insert_core fuel self position (.inr children)

/-- Embedding of `Element.append` (`elements.py` lines 338-346):
`insert(len(self.contents), element)[0]`. -/
def Element_append (fuel : Nat) (self el : Nat) : PyM Nat := do
  let inserted ← Element_insert_one fuel self (← contentsOf self).length el
  match inserted.head? with
  | some x => pure x
  | none => throw .indexError

/-- The traversal loop of `Element.descendants` (`elements.py` lines
486-489), fuelled because `next_element` chains can be cyclic under the
shared-`contents` corruption. -/
def descLoop (fuel : Nat) (stop : Option Nat) (cur : Option Nat) :
    PyM (List Nat) := do
  match fuel with
  | 0 => throw .fuelExhausted
  | fuel + 1 =>
    if cur == stop then pure []
    else
      match cur with
      | none => pure []
      | some c => do
        let succ ← readNextElement c
        let rest ← descLoop fuel stop succ
        pure (c :: rest)

/-- Embedding of `Element.descendants` (`elements.py` lines 472-489),
collected into a list. -/
def Element_descendants (fuel : Nat) (self : Nat) : PyM (List Nat) := do
  let cl ← contentsOf self
  if cl.length == 0 then pure []
  else do
    let ld_opt ← last_descendant fuel self true true
    let ld ← match ld_opt with
      | some x => pure x
      | none => throw .attributeError
    let stop ← readNextElement ld
    match cl.get? 0 with
    | none => throw .indexError
    | some first => descLoop fuel stop (some first)

/-- Pure view of an element's `contents` (instance attribute if present,
else the shared class list), used to state theorems. -/
def contentsView (h : Heap) (i : Nat) : List Nat :=
  match h.objs.get? i with
  | some o =>
    match o.instContents with
    | some l => l
    | none => h.classContents
  | none => h.classContents


/-- Failing input for the tree-traversal claim: two freshly constructed
`Heading`s (ids 0 and 1) and a fresh `Paragraph` (id 2); then
`h1.append(p)`.  `h2` never appears as an argument of any operation. -/
def appendScenario : Except PyErr (Nat × Heap) :=
  ((do
    let h1 ← newElement (.heading 1 "A")
    let _h2 ← newElement (.heading 2 "B")
    let p ← newElement (.paragraph "x")
    Element_append 100 h1 p) : PyM Nat).run (Heap.mk [] [])

/-- The heap left behind by `appendScenario`. -/
def appendScenarioHeap : Heap :=
  match appendScenario with
  | .ok r => r.2
  | .error _ => Heap.mk [] []

/-- The same scenario followed by `h2.descendants` (which, per the
specification, should be an empty traversal of the untouched `h2`). -/
def descendantsScenario (fuel : Nat) : Except PyErr (List Nat × Heap) :=
  ((do
    let h1 ← newElement (.heading 1 "A")
    let h2 ← newElement (.heading 2 "B")
    let p ← newElement (.paragraph "x")
    let _ ← Element_append 100 h1 p
    Element_descendants fuel h2) : PyM (List Nat)).run (Heap.mk [] [])


/-! ## Python string primitives used by the parser

`str.strip` / `lstrip` / `rstrip` remove the ASCII whitespace characters
(the only ones occurring in the inputs involved); `\s`, `\w` and
`str.isdigit` are modelled over ASCII likewise. -/

/-- Python whitespace (`\s`, `str.strip`): space, tab, LF, CR, VT, FF. -/
def pyIsSpace (c : Char) : Bool :=
  c == ' ' || c == '\t' || c == '\n' || c == '\r' || c == '\x0b' || c == '\x0c'

/-- Regex `\w`: word character. -/
def pyIsWordChar (c : Char) : Bool :=
  c.isAlphanum || c == '_'

/-- Python `str.lstrip()`. -/
def pyLstrip (s : String) : String :=
  String.mk (s.toList.dropWhile pyIsSpace)

/-- Python `str.rstrip()`. -/
def pyRstrip (s : String) : String :=
  String.mk (((s.toList.reverse).dropWhile pyIsSpace).reverse)

/-- Python `str.strip()`. -/
def pyStrip (s : String) : String :=
  pyLstrip (pyRstrip s)


/-- Prefix test on character lists (Python `str.startswith`). -/
def charsStartWith : List Char → List Char → Bool
  | [], _ => true
  | _ :: _, [] => false
  | p :: ps, c :: cs => p == c && charsStartWith ps cs

/-- Python `str.startswith`. -/
def pyStartsWith (s pre : String) : Bool :=
  charsStartWith pre.toList s.toList

/-- Python `str.endswith`. -/
def pyEndsWith (s suf : String) : Bool :=
  charsStartWith suf.toList.reverse s.toList.reverse

/-- Worker of `pySplitOn`: scan for the (non-empty) separator, cutting
the accumulated token at each occurrence.  One fuel unit is spent per
consumed character, so `length + 1` fuel always suffices. -/
def pySplitGo (sep : List Char) : Nat → List Char → List Char → List (List Char)
  | _, acc, [] => [acc.reverse]
  | 0, acc, l => [acc.reverse ++ l]
  | fuel + 1, acc, c :: rest =>
    if charsStartWith sep (c :: rest) then
      acc.reverse :: pySplitGo sep fuel [] ((c :: rest).drop sep.length)
    else
      pySplitGo sep fuel (c :: acc) rest

/-- Python `s.split(sep)` for a non-empty separator. -/
def pySplitOn (s sep : String) : List String :=
  if sep.toList.isEmpty then [s]
  else (pySplitGo sep.toList (s.toList.length + 1) [] s.toList).map String.mk

/-- Python `sep.join(parts)`. -/
def pyJoin (sep : String) : List String → String
  | [] => ""
  | [x] => x
  | x :: y :: rest => x ++ sep ++ pyJoin sep (y :: rest)

/-- Python `s.replace(old, new)` for a non-empty `old`
(split on `old`, join with `new`). -/
def pyReplace (s old new : String) : String :=
  pyJoin new (pySplitOn s old)

/-- Python `needle in haystack` for strings. -/
def pyInStr (needle hay : String) : Bool :=
  (pySplitOn hay needle).length ≥ 2

/-- Regex `^\s*$` (the parser's blank-line test, used by
`_parse_heading_var_one`). -/
def isBlankLine (s : String) : Bool :=
  s.toList.all pyIsSpace

/-! ## Markdown parser (`core/docparse/markdown_parser/__init__.py`) -/

/-- Embedding of the separator-cell regex `^\s*:?-+:\s*$` of
`is_markdown_table_start` (`__init__.py` line 184): optional whitespace,
an optional leading colon, one or more dashes, a mandatory trailing
colon, optional whitespace.  (The regex engine's backtracking over the
optional `:?` cannot change the outcome, because a string accepted
without consuming the leading colon starts with `-`.) -/
def sep_cell_match (cell : String) : Bool :=
  let l := cell.toList.dropWhile pyIsSpace
  let l1 := match l with
    | ':' :: rest => rest
    | _ => l
  let dashes := l1.takeWhile (fun c => c == '-')
  if dashes.isEmpty then false
  else
    match l1.drop dashes.length with
    | ':' :: tail => tail.all pyIsSpace
    | _ => false

/-- Embedding of `MarkdownParser.is_markdown_table_start` (`__init__.py`
lines 174-186): the current line must start and end with `|` after
stripping, the (present and non-empty) next line must too, and every
interior cell of the next line must match the separator-cell regex. -/
def is_markdown_table_start (line : String) (next_line : Option String) : Bool :=
  if !(pyStartsWith (pyStrip line) "|" && pyEndsWith (pyStrip line) "|") then false
  else
    match next_line with
    | none => false
    | some nl =>
      if nl == "" then false
      else
        let separator := pyStrip nl
        if !(pyStartsWith separator "|" && pyEndsWith separator "|") then false
        else
          (((pySplitOn separator "|").drop 1).dropLast).all
            (fun part => sep_cell_match (pyStrip part))

/-- Regex `^\s*` + "```" + `(\w+)?` of `process_code_block_start`
(`__init__.py` line 104); the result is the captured language group. -/
def matchCodeFence (line : String) : Option (Option String) :=
  let l := line.toList.dropWhile pyIsSpace
  if charsStartWith "```".toList l then
    let w := (l.drop 3).takeWhile pyIsWordChar
    some (if w.isEmpty then none else some (String.mk w))
  else none

/-- Regex `^={3,}\s*$` / `^-{3,}\s*$` of `_parse_heading_var_one`
(`__init__.py` line 289). -/
def matchesSetextUnderline (tmpl : Char) (s : String) : Bool :=
  let l := s.toList
  let run := l.takeWhile (fun c => c == tmpl)
  run.length ≥ 3 && (l.drop run.length).all pyIsSpace

/-- Regex `^(\s?#{level}\s+)(.*)$` of `_parse_heading_var_two`
(`__init__.py` line 298): at most one leading whitespace character,
exactly `level` hashes, at least one whitespace character, then the
heading text; returns (group 1, group 2). -/
def matchAtx (level : Nat) (s : String) : Option (String × String) :=
  let l := s.toList
  let lead : List Char × List Char := match l with
    | c :: rest => if pyIsSpace c then ([c], rest) else ([], l)
    | [] => ([], [])
  let l1 := lead.2
  if l1.take level = List.replicate level '#' then
    let l2 := l1.drop level
    let sp := l2.takeWhile pyIsSpace
    if sp.isEmpty then none
    else some (String.mk (lead.1 ++ List.replicate level '#' ++ sp),
      String.mk (l2.drop sp.length))
  else none

/-- Bullet-item regex `^([\*\-\+])\s+(.*)` of `process_list`
(`__init__.py` line 138), applied to the lstripped line; the result is
group 2. -/
def matchBullet (s : String) : Option String :=
  match s.toList with
  | c :: rest =>
    if c == '*' || c == '-' || c == '+' then
      let sp := rest.takeWhile pyIsSpace
      if sp.isEmpty then none
      else some (String.mk (rest.drop sp.length))
    else none
  | [] => none

/-- Ordered-item regex `^(\d+)[\.\)]\s+(.*)` of `process_list`
(`__init__.py` line 143); the result is group 2. -/
def matchOrdered (s : String) : Option String :=
  let l := s.toList
  let ds := l.takeWhile Char.isDigit
  if ds.isEmpty then none
  else
    match l.drop ds.length with
    | c :: rest =>
      if c == '.' || c == ')' then
        let sp := rest.takeWhile pyIsSpace
        if sp.isEmpty then none
        else some (String.mk (rest.drop sp.length))
      else none
    | [] => none

/-- Backtracking helper for the lazy groups of the image regex: try
every split of the input at an occurrence of `close` (shortest group
first, the group may contain `close`-failures skipped over), feeding the
group and the remainder to the continuation. -/
def lazyUntil {α : Type} (close : Char) (k : List Char → String → Option α) :
    List Char → List Char → Option α
  | acc, [] => none
  | acc, c :: tl =>
    if c == close then
      match k tl (String.mk acc.reverse) with
      | some r => some r
      | none => lazyUntil close k (c :: acc) tl
    else lazyUntil close k (c :: acc) tl

/-- Suffix `\)` preceded by the optional title group `(?:\"(.*?)\")?`
(greedy option: with the quoted title first) of the image regex. -/
def imageQuoteTail (src : String) (rest : List Char) : Option (String × Option String) :=
  let withTitle : Option (String × Option String) :=
    match rest with
    | '"' :: tl =>
      lazyUntil '"' (fun after title =>
        match after with
        | ')' :: _ => some (src, some title)
        | _ => none) [] tl
    | _ => none
  match withTitle with
  | some r => some r
  | none =>
    match rest with
    | ')' :: _ => some (src, none)
    | _ => none

/-- The greedy `\s*` between the lazy src group and the optional title
of the image regex, with backtracking from the longest whitespace run
down. -/
def imageWsTail (src : String) (rest : List Char) : Nat → Option (String × Option String)
  | 0 => imageQuoteTail src rest
  | j + 1 =>
    match imageQuoteTail src (rest.drop (j + 1)) with
    | some r => some r
    | none => imageWsTail src rest j

/-- The `\((.*?)\s*(?:\"(.*?)\")?\)` tail of the image regex: lazy src
group (shortest first). -/
def imageSrcTail : List Char → List Char → Option (String × Option String)
  | acc, rest =>
    let src := String.mk acc.reverse
    match imageWsTail src rest (rest.takeWhile pyIsSpace).length with
    | some r => some r
    | none =>
      match rest with
      | [] => none
      | c :: tl => imageSrcTail (c :: acc) tl

/-- Embedding of the image regex
`!\[(.*?)\]\((.*?)\s*(?:\"(.*?)\")?\)` of `process_image`
(`__init__.py` line 260), anchored at the start by `re.match`; the
result is (alt, src, title). -/
def matchImage (line : String) : Option (String × String × Option String) :=
  match line.toList with
  | '!' :: '[' :: rest =>
    lazyUntil ']' (fun after alt =>
      match after with
      | '(' :: tl =>
        match imageSrcTail [] tl with
        | some (src, title) => some (alt, src, title)
        | none => none
      | _ => none) [] rest
  | _ => none

/-- Repeated `re.findall(open(.*?)close, s, DOTALL)` extraction used by
`parse_html_table` (`__init__.py` lines 233, 241, 243, 247, 251):
non-overlapping matches, each group running to the first `close` after
its `open`. -/
def pyFindAllBetween (opn cls : String) (fuel : Nat) (s : String) : List String :=
  match fuel with
  | 0 => []
  | fuel + 1 =>
    match pySplitOn s opn with
    | _ :: r1 :: rest1 =>
      match pySplitOn (pyJoin opn (r1 :: rest1)) cls with
      | grp :: r2 :: rest2 =>
        grp :: pyFindAllBetween opn cls fuel (pyJoin cls (r2 :: rest2))
      | _ => []
    | _ => []

/-- `re.search(open(.*?)close, s, DOTALL)` used for the `<thead>` /
`<tbody>` blocks (`__init__.py` lines 230, 238): the text between the
first `open` and the first `close` after it. -/
def pyFindBetween (opn cls : String) (s : String) : Option String :=
  match pySplitOn s opn with
  | _ :: r1 :: rest1 =>
    match pySplitOn (pyJoin opn (r1 :: rest1)) cls with
    | grp :: _ :: _ => some grp
    | _ => none
  | _ => none

/-- Tag stripper `re.sub(r"<[^>]+>", "", h)` (`__init__.py` lines 234,
244, 252). -/
def stripTags (fuel : Nat) (l : List Char) : List Char :=
  match fuel with
  | 0 => l
  | fuel + 1 =>
    match l with
    | [] => []
    | '<' :: rest =>
      let inner := rest.takeWhile (fun c => !(c == '>'))
      if inner.isEmpty then '<' :: stripTags fuel rest
      else
        match rest.drop inner.length with
        | '>' :: tail => stripTags fuel tail
        | _ => '<' :: stripTags fuel rest
    | c :: rest => c :: stripTags fuel rest

/-- Parser state (`MarkdownParser.__init__`, `__init__.py` lines
57-67). -/
structure ParserState where
  document : Nat
  previous_heading : Nat
  in_code_block : Bool
  in_table_block : Bool
  table_type : Option String
  table_lines : List String
  code_language : Option String
  code_lines : List String
  jump_to_next : Bool
deriving DecidableEq

/-- Python property-assignment semantics for
`Heading.element_text_source`: `elements.py` line 495 declares the class
attribute, but lines 516-520 redefine the same name as `@property` with
a getter only.  `property` implements `__set__`; with `fset = None` the
instance assignment `cur_heading.element_text_source = text_source`
performed by `_parse_heading_action` (`__init__.py` line 308) raises
`AttributeError`.  The setter slot is therefore `none`. -/
def heading_element_text_source_fset : Option (Nat → String → PyM Unit) := none

/-- Assignment through the `Heading.element_text_source` property. -/
def setHeadingTextSource (i : Nat) (v : String) : PyM Unit :=
  match heading_element_text_source_fset with
  | none => throw .attributeError
  | some f => f i v

/-- Python property-assignment semantics for `Element.text`:
`elements.py` line 135 defines `text = property(get_text)` with no
setter, so the assignments `table.text = ...` of `parse_markdown_table`
(`__init__.py` line 219) and `parse_html_table` (line 254) raise
`AttributeError`. -/
def element_text_fset : Option (Nat → String → PyM Unit) := none

/-- Assignment through the `Element.text` property. -/
def setElementTextProperty (i : Nat) (v : String) : PyM Unit :=
  match element_text_fset with
  | none => throw .attributeError
  | some f => f i v

/-- Assignment `self.document.main = cur_heading` (`__init__.py` line
320) and `table.headers = headers` (line 235): plain instance-attribute
assignments, always succeed. -/
def setMain (i : Nat) (v : Option Nat) : PyM Unit :=
  updObj i (fun o => { o with main := some v })

/-- Reassignment of the `headers` payload of a `Table`
(`parse_html_table`, `__init__.py` line 235). -/
def setTableHeaders (i : Nat) (hs : List String) : PyM Unit :=
  updObj i (fun o =>
    match o.kind with
    | .table _ => { o with kind := .table hs }
    | _ => o)

/-- Reading `.level` (set by `Heading.__init__`; any other node raises
`AttributeError`, including the document and `None.level`). -/
def getLevel (i : Nat) : PyM Nat := do
  match (← getObjM i).kind with
  | .heading l _ => pure l
  | _ => throw .attributeError

/-- The cursor walk-up loop of `_parse_heading_action` (`__init__.py`
lines 315-317): `while parent.level >= level: parent = parent.parent`;
reading `.level` of `None` or of the document raises. -/
def headingWalkUp (fuel : Nat) (level : Nat) (cur : Option Nat) : PyM Nat := do
  match fuel with
  | 0 => throw .fuelExhausted
  | fuel + 1 =>
    match cur with
    | none => throw .attributeError
    | some p => do
      let l ← getLevel p
      if l ≥ level then headingWalkUp fuel level (← readParent p)
      else pure p

/-- Embedding of `MarkdownParser._parse_heading_action` (`__init__.py`
lines 306-322): construct the `Heading`, record its source rendering
(which raises, see `setHeadingTextSource`), insert it by walking up from
the cursor, record `main` for a level-1 heading, advance the cursor. -/
def parse_heading_action (fuel : Nat) (ps : ParserState) (level : Nat)
    (text text_source : String) : PyM ParserState := do
  let cur ← newElement (.heading level text)
  setHeadingTextSource cur text_source
  if ps.previous_heading == ps.document then do
    let _ ← Element_append fuel ps.previous_heading cur
    pure ()
  else do
    match (← getObjM ps.previous_heading).kind with
    | .heading plevel _ =>
      if level > plevel then do
        let _ ← Element_append fuel ps.previous_heading cur
        pure ()
      else do
        let par ← readParent ps.previous_heading
        let target ← headingWalkUp fuel level par
        let _ ← Element_append fuel target cur
        pure ()
    | _ => pure ()
  if level == 1 then setMain ps.document (some cur) else pure ()
  pure { ps with previous_heading := cur }

/-- Embedding of `MarkdownParser._parse_heading_var_one` (`__init__.py`
lines 278-295): Setext headings (level 1 `===`, level 2 `---` underline
on the following line); other levels raise (guard against caller
misuse). -/
def parse_heading_var_one (fuel : Nat) (ps : ParserState) (level : Nat)
    (string : String) (next_string : Option String) :
    PyM (Option ParserState) := do
  match next_string with
  | none => pure none
  | some ns =>
    if isBlankLine string then pure none
    else do
      let tmpl : Char ←
        if level == 1 then pure '='
        else if level == 2 then pure '-'
        else throw (.exception ("Not support level: " ++ toString level))
      if matchesSetextUnderline tmpl ns then
        some <$> parse_heading_action fuel ps level (pyStrip string)
          (string ++ "\n" ++ ns)
      else pure none

/-- The ATX loop of `process_heading` (`__init__.py` lines 129-132):
levels 1-6 in order, first match wins. -/
def tryAtxLevels (fuel : Nat) (ps : ParserState) (line : String) :
    List Nat → PyM (Option ParserState)
  | [] => pure none
  | lv :: rest => do
    match matchAtx lv line with
    | some g =>
      some <$> parse_heading_action fuel ps lv g.2 (g.1 ++ g.2)
    | none => tryAtxLevels fuel ps line rest

/-- Embedding of `MarkdownParser.process_heading` (`__init__.py` lines
119-133): Setext levels 1-2 first (setting the pushback flag on
success), then ATX levels 1-6. -/
def process_heading (fuel : Nat) (ps : ParserState) (line : String)
    (next_line : Option String) : PyM (Option ParserState) := do
  match ← parse_heading_var_one fuel ps 1 line next_line with
  | some ps2 => pure (some { ps2 with jump_to_next := true })
  | none =>
    match ← parse_heading_var_one fuel ps 2 line next_line with
    | some ps2 => pure (some { ps2 with jump_to_next := true })
    | none => tryAtxLevels fuel ps line [1, 2, 3, 4, 5, 6]

/-- Embedding of `MarkdownParser.process_list` and `handle_list`
(`__init__.py` lines 135-155): bullet or ordered marker stripped, the
remaining text stripped and appended as a `Paragraph` under the
cursor. -/
def process_list (fuel : Nat) (ps : ParserState) (line : String) :
    PyM (Option ParserState) := do
  let stripped_line := pyLstrip line
  match matchBullet stripped_line with
  | some text2 => do
    let item ← newElement (.paragraph (pyStrip text2))
    let _ ← Element_append fuel ps.previous_heading item
    pure (some ps)
  | none =>
    match matchOrdered stripped_line with
    | some text2 => do
      let item ← newElement (.paragraph (pyStrip text2))
      let _ ← Element_append fuel ps.previous_heading item
      pure (some ps)
    | none => pure none

/-- Embedding of `MarkdownParser.process_table` (`__init__.py` lines
157-172). -/
def process_table (ps : ParserState) (line : String)
    (next_line : Option String) : Option ParserState :=
  if is_markdown_table_start line next_line then
    some { ps with
      in_table_block := true
      table_type := some "markdown"
      table_lines := match next_line with
        | some nl => [line, nl]
        | none => [line]
      jump_to_next := true }
  else if pyStartsWith (pyStrip line) "<table" then
    some { ps with
      in_table_block := true
      table_type := some "html"
      table_lines := [line] }
  else none

/-- Embedding of `MarkdownParser.process_image` (`__init__.py` lines
259-268). -/
def process_image (fuel : Nat) (ps : ParserState) (line : String) :
    PyM (Option ParserState) := do
  match matchImage line with
  | some r => do
    let pic ← newElement (.picture r.2.1 (some r.1) r.2.2)
    let _ ← Element_append fuel ps.previous_heading pic
    pure (some ps)
  | none => pure none

/-- Embedding of `MarkdownParser.process_paragraph` (`__init__.py` lines
270-276): any line with non-blank content becomes a `Paragraph`. -/
def process_paragraph (fuel : Nat) (ps : ParserState) (line : String) :
    PyM (Option ParserState) := do
  if (pyStrip line).toList.isEmpty then pure none
  else do
    let paragraph ← newElement (.paragraph line)
    let _ ← Element_append fuel ps.previous_heading paragraph
    pure (some ps)

/-- Embedding of `MarkdownParser.end_code_block` (`__init__.py` lines
112-117). -/
def end_code_block (fuel : Nat) (ps : ParserState) : PyM ParserState := do
  let code := pyJoin "\n" ps.code_lines
  let code_block ← newElement (.codeBlock code ps.code_language)
  let _ ← Element_append fuel ps.previous_heading code_block
  pure { ps with in_code_block := false, code_language := none }

/-- Embedding of `MarkdownParser.parse_markdown_table` (`__init__.py`
lines 211-222): headers from the first buffered line; the assignment
`table.text = "\n".join(lines)` goes through the getter-only
`Element.text` property and raises before the table is appended. -/
def parse_markdown_table (fuel : Nat) (ps : ParserState) : PyM ParserState := do
  let lines := ps.table_lines.map pyStrip
  let first ← match lines.head? with
    | some l0 => pure l0
    | none => throw .indexError
  let headers := (((pySplitOn first "|").drop 1).dropLast).map pyStrip
  let table ← newElement (.table headers)
  setElementTextProperty table (pyJoin "\n" lines)
  let _ ← Element_append fuel ps.previous_heading table
  pure ps

/-- Embedding of `MarkdownParser.parse_html_table` (`__init__.py` lines
224-257): regex extraction of `<thead>`/`<th>` headers and
`<tbody>`/`<tr>`/`<td>` rows, then the `table.text = html` assignment,
which raises like the markdown case. -/
def parse_html_table (fuel : Nat) (ps : ParserState) : PyM ParserState := do
  let html := pyJoin "\n" ps.table_lines
  let table ← newElement (.table [])
  let headers :=
    match pyFindBetween "<thead>" "</thead>" html with
    | some thead_content =>
      (pyFindAllBetween "<th>" "</th>" (thead_content.length + 1) thead_content).map
        (fun h => pyStrip (String.mk (stripTags (h.length + 1) h.toList)))
    | none => []
  setTableHeaders table headers
  let _rows : List (List String) :=
    match pyFindBetween "<tbody>" "</tbody>" html with
    | some tbody_content =>
      (pyFindAllBetween "<tr>" "</tr>" (tbody_content.length + 1) tbody_content).map
        (fun tr =>
          (pyFindAllBetween "<td>" "</td>" (tr.length + 1) tr).map
            (fun td => pyStrip (String.mk (stripTags (td.length + 1) td.toList))))
    | none =>
      ((pyFindAllBetween "<tr>" "</tr>" (html.length + 1) html).filter
        (fun tr => !(pyInStr "<th>" tr))).map
        (fun tr =>
          (pyFindAllBetween "<td>" "</td>" (tr.length + 1) tr).map
            (fun td => pyStrip (String.mk (stripTags (td.length + 1) td.toList))))
  setElementTextProperty table html
  let _ ← Element_append fuel ps.previous_heading table
  pure ps

/-- Embedding of `MarkdownParser.end_table` (`__init__.py` lines
202-209). -/
def end_table (fuel : Nat) (ps : ParserState) : PyM ParserState := do
  let ps2 ←
    if ps.table_type == some "markdown" then parse_markdown_table fuel ps
    else if ps.table_type == some "html" then parse_html_table fuel ps
    else pure ps
  pure { ps2 with
    in_table_block := false
    table_type := none
    table_lines := [] }

/-- Embedding of `MarkdownParser.process_table_row` (`__init__.py` lines
188-200). -/
def process_table_row (fuel : Nat) (ps : ParserState) (line : String)
    (next_line : Option String) : PyM ParserState := do
  if ps.table_type == some "markdown" then do
    let stripped := pyStrip line
    if stripped.toList.isEmpty || !(pyStartsWith stripped "|") then
      end_table fuel ps
    else do
      let ps := { ps with table_lines := ps.table_lines ++ [line] }
      match next_line with
      | none => end_table fuel ps
      | some nl =>
        if nl == "" || !(pyStartsWith (pyStrip nl) "|") then end_table fuel ps
        else pure ps
  else if ps.table_type == some "html" then do
    let ps := { ps with table_lines := ps.table_lines ++ [line] }
    if pyInStr "</table>" line then end_table fuel ps else pure ps
  else pure ps

/-- Embedding of `MarkdownParser.process_code_block_start` (`__init__.py`
lines 103-110). -/
def process_code_block_start (ps : ParserState) (line : String) :
    Option ParserState :=
  match matchCodeFence line with
  | some lang =>
    some { ps with
      in_code_block := true
      code_language := lang
      code_lines := [] }
  | none => none

/-- Embedding of `MarkdownParser.process_line` (`__init__.py` lines
82-101): code-block buffering, then the fixed handler chain, first
success wins (a line matching nothing produces no node). -/
def process_line (fuel : Nat) (ps : ParserState) (line : String)
    (next_line : Option String) : PyM ParserState := do
  if ps.in_code_block then
    if pyStartsWith line "```" then end_code_block fuel ps
    else pure { ps with code_lines := ps.code_lines ++ [line] }
  else do
    match process_code_block_start ps line with
    | some ps2 => pure ps2
    | none =>
      match ← process_heading fuel ps line next_line with
      | some ps2 => pure ps2
      | none =>
        match ← process_list fuel ps line with
        | some ps2 => pure ps2
        | none =>
          match process_table ps line next_line with
          | some ps2 => pure ps2
          | none =>
            match ← process_image fuel ps line with
            | some ps2 => pure ps2
            | none =>
              match ← process_paragraph fuel ps line with
              | some ps2 => pure ps2
              | none => pure ps

/-- Embedding of the loop of `MarkdownParser.parse` (`__init__.py` lines
69-80): one unit of pushback via `jump_to_next`, lookahead at the next
line, `rstrip` outside code blocks. -/
def parse_lines (fuel : Nat) (ps : ParserState) : List String → PyM ParserState
  | [] => pure ps
  | line :: rest => do
    if ps.jump_to_next then
      parse_lines fuel { ps with jump_to_next := false } rest
    else do
      let next_line := rest.head?
      let ps2 ←
        if ps.in_table_block then
          process_table_row fuel ps line next_line
        else
          process_line fuel ps
            (if !ps.in_code_block then pyRstrip line else line) next_line
      parse_lines fuel ps2 rest

/-- Embedding of `MarkdownDocument(markdown_text)` for a non-empty text
(`__init__.py` lines 15-32 and 53-80): construct the document, split the
text on newlines, run the parser loop with the document as the initial
cursor. -/
def MarkdownDocument_parse (fuel : Nat) (text : String) :
    Except PyErr (ParserState × Heap) :=
  ((do
    let doc ← newDocument
    let ps : ParserState :=
      ParserState.mk doc doc false false none [] none [] false
    parse_lines fuel ps (pySplitOn text "\n")) : PyM ParserState).run
    (Heap.mk [] [])


/-! ## Catalog number-shape detection (`core/pptgen/pptpages.py`,
`CatalogPage._get_catalog_items` lines 257-270) -/

/-- Value of an ASCII digit string. -/
def digitsVal (l : List Char) : Nat :=
  l.foldl (fun acc c => acc * 10 + (c.toNat - 48)) 0

/-- Python `int(s)` as applied to the (already stripped) shape texts:
defined exactly on digit strings, `ValueError` (here `none`) otherwise —
in particular `int("1.")` raises. -/
def pyIntOfText (s : String) : Option Nat :=
  if pyIsdigit s then some (digitsVal s.toList) else none

/-- Embedding of the number-shape acceptance test (`pptpages.py` lines
259-266) on one collected text (`shape.text.strip()`): length at most 3,
all digits or digits with one trailing period, numeric value (periods
removed) at most 49. -/
def is_number_shape_text (text : String) : Bool :=
  let t := pyStrip text
  if t.toList.length > 3 then false
  else if pyIsdigit t ||
      (pyEndsWith t "." && pyIsdigit (String.mk t.toList.dropLast)) then
    match pyIntOfText (pyReplace t "." "") with
    | some v => decide (v ≤ 49)
    | none => false
  else false

/-- Errors of the slide-synthesis layer (`PPTTemplateError` /
`PPTGenError`); the count-mismatch constructors carry the two counts the
f-string of `ChapterContentPage.generate_slide` interpolates. -/
inductive PPTError where
  | templateError (msg : String)
  | genError (msg : String)
  | contentCountMismatch (texts locs : Nat)
  | titleCountMismatch (titles locs : Nat)
deriving DecidableEq

/-- Stable insertion by key (the observable behaviour of Python
`list.sort(key=...)`). -/
def insertByKey {α : Type} (x : α × Nat) : List (α × Nat) → List (α × Nat)
  | [] => [x]
  | y :: rest => if x.2 ≤ y.2 then x :: y :: rest else y :: insertByKey x rest

/-- Stable sort by key. -/
def sortByKey {α : Type} : List (α × Nat) → List (α × Nat)
  | [] => []
  | x :: rest => insertByKey x (sortByKey rest)

/-- Embedding of the number-shape collection and sort of
`_get_catalog_items` (`pptpages.py` lines 257-270), over the stripped
texts of the slide's non-placeholder text shapes: filter by the
acceptance test, then `number_shapes.sort(key=lambda s:
int(s["text"]))`; the sort evaluates its key on every element, and a
`ValueError` (raised e.g. for an accepted trailing-period text) is
converted to `PPTTemplateError("Chapter number must be a number")`. -/
def catalog_number_shapes (texts : List String) : Except PPTError (List String) :=
  let number_shapes := texts.filter is_number_shape_text
  match number_shapes.mapM (fun t => pyIntOfText t) with
  | none => .error (.templateError "Chapter number must be a number")
  | some keys => .ok ((sortByKey (number_shapes.zip keys)).map (fun p => p.1))


/-! ## Catalog page and deck model (`pptpages.py`, `pptgen.py`)

A presentation is modelled as a list of slides.  Each slide carries an
identity (`sid`, allocation order: the five template slides get 0-4,
clones and new slides fresh ids) and its catalog item slots.  A slot is
the (number shape, title shape) pair `_get_catalog_items` produces by
nearest-neighbour geometric matching; the pairing is a fixed property of
the template's geometry and is carried directly (the slot texts are the
collected `shape.text.strip()` values), the claims under verification
exercising the counting, numbering, overflow, ordering and deletion
logic built on top of it.  Non-catalog slides carry no slots — on such a
slide `_get_catalog_items` finds no number shapes and raises. -/

structure CatalogSlot where
  num : String
  title : String
deriving DecidableEq

structure MSlide where
  sid : Nat
  slots : List CatalogSlot
deriving DecidableEq

/-- `pptx` `Presentation.slides.add_slide`: appends at the end. -/
def addSlide (deck : List MSlide) (s : MSlide) : List MSlide :=
  deck ++ [s]

/-- Embedding of `Page.move_slide` (`pptpages.py` lines 78-92): remove
the slide's element at its current index and insert it at the new
index. -/
def move_slide (deck : List MSlide) (oldIdx newIdx : Nat) : List MSlide :=
  match deck.get? oldIdx with
  | none => deck
  | some s => (deck.eraseIdx oldIdx).insertIdx newIdx s

/-- Embedding of `Page.remove_slide` (`pptpages.py` lines 52-58):
delete the slide at the given index. -/
def remove_slide (deck : List MSlide) (idx : Nat) : List MSlide :=
  deck.eraseIdx idx

/-- Embedding of `_get_catalog_items` on the slide model (`pptpages.py`
lines 236-344): the number shapes are the slots whose number text passes
the acceptance test of `is_number_shape_text`; the sort and its
`ValueError` conversion are as in `catalog_number_shapes`; zero number
shapes raise.  The result pairs each accepted slot with its position on
the slide, so that writes and deletions land on the right shapes. -/
def get_catalog_items (slide : MSlide) : Except PPTError (List (Nat × CatalogSlot)) :=
  let indexed := (List.range slide.slots.length).zip slide.slots
  let number_shapes := indexed.filter (fun p => is_number_shape_text p.2.num)
  match number_shapes.mapM (fun p => pyIntOfText p.2.num) with
  | none => .error (.templateError "Chapter number must be a number")
  | some keys =>
    let sorted := (sortByKey (number_shapes.zip keys)).map (fun p => p.1)
    if sorted.isEmpty then
      .error (.templateError "Catalog page must have at least one chapter numbers")
    else
      .ok sorted

/-- Python `str(n).zfill(2)`. -/
def zfill2 (n : Nat) : String :=
  if n < 10 then "0" ++ toString n else toString n

/-- The write loop of `CatalogPage.generate_slide` (`pptpages.py` lines
388-400): the i-th catalog item receives the i-th chapter title and the
zero-padded running number. -/
def writeCatalogItems (slots : List CatalogSlot) (items : List (Nat × CatalogSlot))
    (content : List String) (begin_number : Nat) : List CatalogSlot :=
  match items, content with
  | [], _ => slots
  | _, [] => slots
  | (j, _) :: irest, c :: crest =>
    writeCatalogItems (slots.set j (CatalogSlot.mk (zfill2 begin_number) c))
      irest crest (begin_number + 1)

/-- The excess-slot deletion of `CatalogPage.generate_slide`
(`pptpages.py` lines 371-386): `Page.remove_shapes` drops the number,
title (and background) shapes of the items past `catalog_num`. -/
def removeSlotsAt (slots : List CatalogSlot) (idxs : List Nat) : List CatalogSlot :=
  ((List.range slots.length).zip slots).filterMap
    (fun p => if idxs.contains p.1 then none else some p.2)

/-- Embedding of `CatalogPage.generate_slide` (`pptpages.py` lines
346-414) over the deck model; the result is the final deck, the next
fresh slide id, and the returned `catalog_page_index` (the recursive
call's own return value is discarded, as at lines 407-412 of the
source).  One fuel unit per recursion level; each level consumes at
least one chapter, so `content.length + 1` fuel always suffices. -/
def catalog_generate_slide (fuel : Nat) (deck : List MSlide) (nextId : Nat)
    (content : List String) (catalog_page_index : Nat) (begin_number : Nat) :
    Except PPTError (List MSlide × Nat × Nat) := do
  match fuel with
  | 0 => throw (.genError "model fuel exhausted")
  | fuel + 1 =>
    if content.isEmpty then
      throw (.genError "Catalog page must have content.")
    else do
      let catalog_num := content.length
      let catalog_slide ← match deck.get? catalog_page_index with
        | some s => pure s
        | none => throw (.genError "IndexError: slides")
      let items0 ← get_catalog_items catalog_slide
      let items :=
        if items0.length > catalog_num then items0.take catalog_num else items0
      let excessIdx :=
        if items0.length > catalog_num then (items0.drop catalog_num).map (fun p => p.1)
        else []
      let written := writeCatalogItems catalog_slide.slots items content begin_number
      let newSlots := removeSlotsAt written excessIdx
      let deck2 := deck.set catalog_page_index (MSlide.mk catalog_slide.sid newSlots)
      let begin_after := begin_number + items.length
      if begin_after - 1 < catalog_num then do
        let deck3 := addSlide deck2 (MSlide.mk nextId newSlots)
        let new_catalog_page_index := catalog_page_index + 1
        let deck4 := move_slide deck3 (deck3.length - 1) new_catalog_page_index
        let r ← catalog_generate_slide fuel deck4 (nextId + 1)
          (content.drop items.length) new_catalog_page_index begin_after
        pure (r.1, r.2.1, new_catalog_page_index)
      else
        pure (deck2, nextId, catalog_page_index)

/-- Descending insertion (Python `list.sort(reverse=True)`)... the sort
used by `_cleanup_template_slides`. -/
def insertDesc (x : Nat) : List Nat → List Nat
  | [] => [x]
  | y :: rest => if x ≥ y then x :: y :: rest else y :: insertDesc x rest

/-- Python `idxs.sort(reverse=True)`. -/
def sortDescNat : List Nat → List Nat
  | [] => []
  | x :: rest => insertDesc x (sortDescNat rest)

/-- Embedding of `PPTGen._cleanup_template_slides` (`pptgen.py` lines
88-92): sort the indices in decreasing order, then `remove_slide` each
in turn. -/
def cleanup_template_slides (deck : List MSlide) (idxs : List Nat) : List MSlide :=
  (sortDescNat idxs).foldl remove_slide deck

/-- One `add_slide` + `move_slide` pair: the deck-level effect of
`ChapterHomePage.generate_slide`, `ChapterContentPage.generate_slide`
and `EndPage.generate_slide` (each adds one slide at the end and moves
it to its target index; their shape-level work neither adds nor removes
slides and is modelled as succeeding here — the claim under verification
concerns which slides `generate` deletes). -/
def addMove (deck : List MSlide) (nextId idx : Nat) : List MSlide × Nat :=
  let d := addSlide deck (MSlide.mk nextId [])
  (move_slide d (d.length - 1) idx, nextId + 1)

/-- Embedding of the deck-level behaviour of `PPTGen.generate`
(`pptgen.py` lines 27-86), taking the chapter titles the document layer
would supply: cover page written in place at `cover_page_index` (no deck
change); catalog generation starting at `catalog_page_index`; per
chapter a home page then a content page at the running slide index; the
end page; finally `_cleanup_template_slides` on the home/content/end
template indices derived from the last catalog index. -/
def pptgen_generate (deck : List MSlide) (nextId : Nat) (chapters : List String)
    (catalog_page_index : Nat) : Except PPTError (List MSlide) := do
  if chapters.isEmpty then
    throw (.genError "Markdown document must have at least one level 2 heading")
  else do
    let r ← catalog_generate_slide (chapters.length + 1) deck nextId chapters
      catalog_page_index 1
    let deck := r.1
    let nextId := r.2.1
    let catalog_last_index := r.2.2
    let chapter_home_page_index := catalog_last_index + 1
    let chapter_content_page_index := chapter_home_page_index + 1
    let end_page_index := chapter_content_page_index + 1
    let current_slide_index := end_page_index + 1
    let st := chapters.foldl
      (fun (acc : List MSlide × Nat × Nat) _ =>
        let d1 := addMove acc.1 acc.2.1 acc.2.2
        let d2 := addMove d1.1 d1.2 (acc.2.2 + 1)
        (d2.1, d2.2, acc.2.2 + 2))
      (deck, nextId, current_slide_index)
    let fin := addMove st.1 st.2.1 st.2.2
    pure (cleanup_template_slides fin.1
      [chapter_home_page_index, chapter_content_page_index, end_page_index])

/-! ## Chapter content page (`pptpages.py`,
`ChapterContentPage.generate_slide` lines 559-661)

`pptpages.py` calls
`add_shape_by_xml(slide=..., shape_xml=..., shape_id=..., shape_name=...,
text_content=..., location=loc)` at every non-picture branch.  The
module imports the function (together with `is_image_path`, which does
not exist there) from `core/pptgen/utils.py`, whose
`add_shape_by_xml(slide, shape_id, shape_name, text_content, shape_xml)`
(line 220) has no `location` parameter: as wired, loading `pptpages`
raises `ImportError`, and against that signature every call site would
raise `TypeError`.  The signature the call sites were written for exists
in the same repository (`workflows/pptgen/utils.py` lines 218-251:
keyword-only, `text_content` defaulted, `location` applied to the new
shape).  Both callees are embedded; the loop is parametrised by the
callee, and by the outcome of `_get_picture` (a directory listing plus
`random.choice`, i.e. the environment). -/

/-- Outcome of one `add_shape_by_xml` call against the intended
signature (`workflows/pptgen/utils.py` lines 218-251): insertion
succeeds on a present fragment; a `None` fragment makes
`etree.fromstring` raise `TypeError` inside `modify_shape_xml`. -/
def add_shape_by_xml_intended (xml : Option String) : Except PPTError Unit :=
  match xml with
  | some _ => .ok ()
  | none => .error (.genError "TypeError: fromstring expects a string")

/-- Outcome of one `add_shape_by_xml` call as wired
(`core/pptgen/utils.py` line 220): the `location=` keyword is rejected
at call time. -/
def add_shape_by_xml_wired (_xml : Option String) : Except PPTError Unit :=
  .error (.genError "TypeError: unexpected keyword argument location")

/-- List of recognized image extensions
(`workflows/pptgen/utils.py` lines 34-44). -/
def IMAGE_EXTENSIONS : List String :=
  ["bmp", "jpg", "jpeg", "pgm", "png", "ppm", "tif", "tiff", "webp"]

/-- Python `str.lower` (ASCII). -/
def pyLower (s : String) : String :=
  String.mk (s.toList.map Char.toLower)

/-- Embedding of `is_image_path` (`workflows/pptgen/utils.py` lines
47-59): the extension after the last dot, lowercased, must be a known
image extension. -/
def is_image_path (file : Option String) : Bool :=
  match file with
  | none => false
  | some f => IMAGE_EXTENSIONS.contains (pyLower ((pySplitOn f ".").getLastD ""))

/-- Equality of a string-valued `shape.content_type` against a
`ContentType` member (`components.py` lines 49-52: the enum compares
equal to its string value; `None` is equal to no member tested here). -/
def ctEq (ct : Option String) (v : String) : Bool :=
  ct == some v

/-- Stable sort of the style's shapes by `zorder`
(`sorted(style.shapes.items(), key=lambda x: x[1].zorder)`,
`pptpages.py` line 599). -/
def insertByZorder (x : String × CShape) :
    List (String × CShape) → List (String × CShape)
  | [] => [x]
  | y :: rest =>
    if x.2.zorder ≤ y.2.zorder then x :: y :: rest else y :: insertByZorder x rest

/-- Stable zorder sort. -/
def sortByZorder : List (String × CShape) → List (String × CShape)
  | [] => []
  | x :: rest => insertByZorder x (sortByZorder rest)

/-- Embedding of the per-location body of the shape loop of
`ChapterContentPage.generate_slide` (`pptpages.py` lines 604-659):
CONTENT and TITLE check the location count against the sub-section
count before inserting; PICTURE resolves its path (literal image path,
else the `_get_picture` environment); NUMBER and the decorative default
insert directly. -/
def content_loc_step (addShape : Option String → Except PPTError Unit)
    (get_picture : String → Except PPTError Unit)
    (titles section_texts : List String) (shape : CShape) (locs_len : Nat)
    (_idx : Nat) : Except PPTError Unit :=
  if ctEq shape.content_type "content" then
    if section_texts.length ≠ locs_len then
      .error (.contentCountMismatch section_texts.length locs_len)
    else addShape shape.xml
  else if ctEq shape.content_type "title" then
    if titles.length ≠ locs_len then
      .error (.titleCountMismatch titles.length locs_len)
    else addShape shape.xml
  else if ctEq shape.content_type "picture" then
    match shape.path with
    | none => .error (.genError "Picture path is None")
    | some p => if is_image_path (some p) then .ok () else get_picture p
  else if ctEq shape.content_type "number" then addShape shape.xml
  else addShape shape.xml

/-- The `for idx, loc in enumerate(locs)` loop of one shape. -/
def content_shape_locs (step : Nat → Except PPTError Unit) :
    List Nat → Except PPTError Unit
  | [] => .ok ()
  | i :: rest => do
    step i
    content_shape_locs step rest

/-- The shape loop of `ChapterContentPage.generate_slide` over the
zorder-sorted shapes. -/
def content_shapes_loop (addShape : Option String → Except PPTError Unit)
    (get_picture : String → Except PPTError Unit)
    (titles section_texts : List String) :
    List (String × CShape) → Except PPTError Unit
  | [] => .ok ()
  | (_, shape) :: rest => do
    content_shape_locs
      (content_loc_step addShape get_picture titles section_texts shape
        shape.location.length)
      (List.range shape.location.length)
    content_shapes_loop addShape get_picture titles section_texts rest

/-- Embedding of `ChapterContentPage.generate_slide` (`pptpages.py`
lines 559-661) at the shape level, for a chapter whose sub-sections
carry the given (title, body text) pairs and a chosen style: the
slide-type guard, then the zorder-sorted shape loop.  (The title
placeholder write and the final `move_slide` neither fail nor affect the
outcome modelled here.) -/
def ChapterContent_generate_slide (addShape : Option String → Except PPTError Unit)
    (get_picture : String → Except PPTError Unit)
    (sections : List (String × String)) (shapes : List (String × CShape)) :
    Except PPTError Unit := do
  let slide_type := sections.length
  if slide_type > 4 then
    .error (.genError ("Invalid slide type: " ++ toString slide_type))
  else
    content_shapes_loop addShape get_picture
      (sections.map (fun s => s.1)) (sections.map (fun s => s.2))
      (sortByZorder shapes)

/-! ## Theorems -/

/-- Key lemma: inserting a fresh key into a dict is plain concatenation. -/
theorem dictInsert_fresh {α : Type} (d : List (String × α)) (k : String) (v : α)
    (h : ∀ p ∈ d, p.1 ≠ k) : dictInsert d k v = d ++ [(k, v)] := by
  unfold dictInsert
  rw [if_neg]
  simp only [List.any_eq_true, beq_iff_eq, not_exists, not_and]
  exact fun p hp => h p hp

/-- Folding dict assignment over items with pairwise distinct keys
reproduces the items in order. -/
theorem foldl_dictInsert {α β : Type} (f : String × β → α) (l : List (String × β))
    (h : (l.map Prod.fst).Nodup) :
    l.foldl (fun st p => dictInsert st p.1 (f p)) [] =
      l.map (fun p => (p.1, f p)) := by
  suffices H : ∀ (acc : List (String × α)),
      (∀ p ∈ acc, ∀ q ∈ l, p.1 ≠ q.1) →
      l.foldl (fun st p => dictInsert st p.1 (f p)) acc =
        acc ++ l.map (fun p => (p.1, f p)) by
    simpa using H [] (by simp)
  induction l with
  | nil => simp
  | cons hd tl ih =>
    intro acc hacc
    have h' : (hd.1 :: tl.map Prod.fst).Nodup := by simpa using h
    have hhd : hd.1 ∉ tl.map Prod.fst := (List.nodup_cons.mp h').1
    have hnd : (tl.map Prod.fst).Nodup := (List.nodup_cons.mp h').2
    simp only [List.foldl_cons]
    rw [dictInsert_fresh _ _ _ (fun p hp => hacc p hp hd (by simp))]
    rw [ih hnd (acc ++ [(hd.1, f hd)]) ?_]
    · simp
    · intro p hp q hq
      rcases List.mem_append.mp hp with hl | hr
      · exact hacc p hl q (by simp [hq])
      · simp only [List.mem_singleton] at hr
        subst hr
        intro hcontra
        exact hhd (by rw [hcontra]; exact List.mem_map_of_mem Prod.fst hq)

/-- Round trip at the `Location` level. -/
theorem Location.roundtrip_dict (l : Location) :
    Location.from_dict (Location.to_dict l) = l := rfl

/-- Round trip at the `CShape` level. -/
theorem CShape.roundtrip_of_dict (s : CShape) :
    CShape.from_dict (CShape.to_dict s) = s := by
  cases s with
  | mk xml zorder content_type path location =>
    cases xml <;> cases content_type <;> cases path <;>
      simp [CShape.from_dict, CShape.to_dict, jObjOf, jGetStr, jGetInt, jGetArr,
        jGet, List.find?, optStrJson, List.map_map] <;>
      rw [show Location.from_dict ∘ Location.to_dict = id from
        funext Location.roundtrip_dict, List.map_id]

/-- Reduction of `jObjOf` on a literal object. -/
theorem jObjOf_obj (kv : List (String × Json)) : jObjOf (.obj kv) = kv := rfl

/-- Round trip at the `Style` level. -/
theorem Style.roundtrip_load (st : StyleShapes)
    (h : (st.map Prod.fst).Nodup) :
    Style.load_from_dict (jObjOf (Style.to_dict st)) = st := by
  unfold Style.load_from_dict Style.to_dict
  rw [jObjOf_obj]
  rw [foldl_dictInsert (fun q => CShape.from_dict q.2)
    (st.map (fun p => (p.1, CShape.to_dict p.2)))
    (by simpa [List.map_map, Function.comp] using h)]
  rw [List.map_map]
  rw [show ((fun q => (q.1, CShape.from_dict q.2)) ∘
      fun (p : String × CShape) => (p.1, CShape.to_dict p.2)) = id by
    funext p
    simp [CShape.roundtrip_of_dict]]
  exact List.map_id st

/-- Round trip at the `LayoutType` level. -/
theorem LayoutType.roundtrip_of_load (ls : LayoutStyles)
    (h : (ls.map Prod.fst).Nodup)
    (hin : ∀ q ∈ ls, ((q.2 : StyleShapes).map Prod.fst).Nodup) :
    LayoutType.load_from_dict (jObjOf (LayoutType.to_dict ls)) = ls := by
  unfold LayoutType.load_from_dict LayoutType.to_dict
  rw [jObjOf_obj]
  rw [foldl_dictInsert (fun q => Style.load_from_dict (jObjOf q.2))
    (ls.map (fun p => (p.1, Style.to_dict p.2)))
    (by simpa [List.map_map, Function.comp] using h)]
  rw [List.map_map]
  refine List.ext_getElem (by simp) ?_
  intro n h1 h2
  simp only [List.getElem_map, Function.comp_apply]
  have hmem : ls[n] ∈ ls := List.getElem_mem _
  rw [Style.roundtrip_load _ (hin _ hmem)]

/-- C5.  For every well-formed catalog, `save_to_json` followed by
`load_from_json` reproduces an identical structure: the same layout
names, style names and shape names in the same order, and for each shape
the same `xml`, `zorder`, `content_type`, `path` and ordered `Location`
list (`components.py` lines 93-121 and 221-234). -/
theorem components_save_load_round_trip (cat : Catalog) (h : CatalogWF cat) :
    ComponentsManager.load_from_json (ComponentsManager.save_to_json cat) = cat := by
  obtain ⟨h1, h2⟩ := h
  unfold ComponentsManager.load_from_json ComponentsManager.save_to_json
  rw [jObjOf_obj]
  rw [foldl_dictInsert (fun q => LayoutType.load_from_dict (jObjOf q.2))
    (cat.map (fun p => (p.1, LayoutType.to_dict p.2)))
    (by simpa [List.map_map, Function.comp] using h1)]
  rw [List.map_map]
  refine List.ext_getElem (by simp) ?_
  intro n hn1 hn2
  simp only [List.getElem_map, Function.comp_apply]
  have hmem : cat[n] ∈ cat := List.getElem_mem _
  rw [LayoutType.roundtrip_of_load _ (h2 _ hmem).1 (h2 _ hmem).2]

/-- Witness for C5: the round trip evaluated on a concrete one-layout,
one-style, one-shape catalog. -/
theorem components_save_load_round_trip_witness :
    CatalogWF [("one_point", [("style1",
      [("TextBox 1_0", CShape.mk (some "<p:sp/>") 0 (some "content") none
        [Location.mk 10 20 300 40])])])] ∧
    ComponentsManager.load_from_json (ComponentsManager.save_to_json
      [("one_point", [("style1",
        [("TextBox 1_0", CShape.mk (some "<p:sp/>") 0 (some "content") none
          [Location.mk 10 20 300 40])])])]) =
      [("one_point", [("style1",
        [("TextBox 1_0", CShape.mk (some "<p:sp/>") 0 (some "content") none
          [Location.mk 10 20 300 40])])])] := by
  have hwf : CatalogWF [("one_point", [("style1",
      [("TextBox 1_0", CShape.mk (some "<p:sp/>") 0 (some "content") none
        [Location.mk 10 20 300 40])])])] := by
    refine ⟨by simp, ?_⟩
    intro p hp
    simp only [List.mem_singleton] at hp
    subst hp
    refine ⟨by simp, ?_⟩
    intro q hq
    simp only [List.mem_singleton] at hq
    subst hq
    simp
  exact ⟨hwf, components_save_load_round_trip _ hwf⟩

/-- Reflexivity of `are_same_shape` on parsed trees: both arguments go
through the identical normalization, so the serializations coincide. -/
theorem are_same_shape_refl (r : Xml) : are_same_shape r r = true := by
  unfold are_same_shape
  simp

/-- Inner merge loop invariant: with the current entry at position 0 and
`done` duplicates already merged, processing the remaining snapshot
positions merges every entry of `todo` as well. -/
theorem innerFold_merge (first : SlideShapeData) (todo : List SlideShapeData) :
    ∀ (done : List SlideShapeData) (rm0 : List String),
    (∀ s ∈ todo, s.xml.isSome = true) →
    (∀ s ∈ todo, are_same_shape_opt first.xml s.xml = true) →
    (∀ s ∈ todo, s.name ≠ first.name) →
    (List.range' (done.length + 1) todo.length).foldl (innerStep 0)
        (mergedShape first done :: (done.map nulledShape ++ todo),
          rm0 ++ done.map (fun s => s.name)) =
      (mergedShape first (done ++ todo) :: ((done ++ todo).map nulledShape),
        rm0 ++ (done ++ todo).map (fun s => s.name)) := by
  induction todo with
  | nil =>
    intro done rm0 _ _ _
    simp
  | cons t todo ih =>
    intro done rm0 hx hs hn
    rw [List.length_cons, List.range'_succ]
    simp only [List.foldl_cons]
    have hget0 : (mergedShape first done ::
        (done.map nulledShape ++ (t :: todo))).get? 0 =
        some (mergedShape first done) := rfl
    have hgetj : (mergedShape first done ::
        (done.map nulledShape ++ (t :: todo))).get? (done.length + 1) =
        some t := by
      rw [List.get?_cons_succ, List.get?_append_right (by simp)]
      simp
    have hname : ((mergedShape first done).name == t.name) = false := by
      simp only [mergedShape]
      exact beq_eq_false_iff_ne.mpr fun hcontra =>
        (hn t (by simp)) (by rw [← hcontra])
    have hxml : t.xml.isNone = false := by
      have := hx t (by simp)
      simp [Option.isNone, Option.isSome] at this ⊢
      cases h : t.xml with
      | none => rw [h] at this; simp at this
      | some v => simp
    have hsame : are_same_shape_opt (mergedShape first done).xml t.xml = true := by
      simp only [mergedShape]
      exact hs t (by simp)
    rw [show innerStep 0
        (mergedShape first done :: (done.map nulledShape ++ (t :: todo)),
          rm0 ++ done.map (fun s => s.name)) (done.length + 1) =
        (mergedShape first (done ++ [t]) ::
          ((done ++ [t]).map nulledShape ++ todo),
          rm0 ++ (done ++ [t]).map (fun s => s.name)) from ?_]
    · have := ih (done ++ [t]) rm0
        (fun s hsm => hx s (by simp [hsm]))
        (fun s hsm => hs s (by simp [hsm]))
        (fun s hsm => hn s (by simp [hsm]))
      simp only [List.length_append, List.length_cons, List.length_nil] at this ⊢
      rw [show done.length + 1 + 1 = done.length + (1 + 1) from by omega] at this
      rw [show done.length + 1 + 1 = done.length + (1 + 1) from by omega]
      rw [this]
      simp [List.append_assoc]
    · simp only [innerStep, hget0, hgetj, hname, hxml, hsame,
        Bool.or_self, Bool.false_or, Bool.false_eq_true, if_false, if_true]
      rw [List.set_cons_zero, List.set_cons_succ,
        List.set_append_right _ _ (by simp)]
      simp only [List.length_map, Nat.sub_self, List.set_cons_zero,
        Prod.mk.injEq]
      refine ⟨?_, ?_⟩
      · simp [mergedShape, nulledShape, List.map_append, List.append_assoc]
      · simp [List.map_append, List.append_assoc]

/-- Outer merge loop steps at positions whose entry has a nulled xml are
no-ops (`if shape_data["xml"] is None: continue`). -/
theorem outerFold_skip (area : Int) (idxs : List Nat) :
    ∀ (st : List SlideShapeData × List String),
    (∀ i ∈ idxs, ∃ s, st.1.get? i = some s ∧ s.xml = none) →
    idxs.foldl (outerStep area) st = st := by
  induction idxs with
  | nil =>
    intro st _
    rfl
  | cons i idxs ih =>
    intro st h
    obtain ⟨s, hgs, hxn⟩ := h i (by simp)
    have hstep : outerStep area st i = st := by
      simp only [outerStep, hgs, hxn]
      simp
    simp only [List.foldl_cons, hstep]
    exact ih st (fun j hj => h j (by simp [hj]))

/-- Merge behaviour of `add_style_from_slide` on a run of shapes that all
compare equal under `are_same_shape`: exactly one record remains, its
location list carries every `Location` entry in order, and its `xml` and
`content_type` are those of the first occurrence. -/
theorem merge_identical_shapes (area : Int) (first : SlideShapeData)
    (rest : List SlideShapeData)
    (hfx : first.xml.isSome = true)
    (hx : ∀ s ∈ rest, s.xml.isSome = true)
    (hs : ∀ s ∈ rest, are_same_shape_opt first.xml s.xml = true)
    (hn : ∀ s ∈ rest, s.name ≠ first.name)
    (hrefine : refineContentType area first = first) :
    merge_similar_shapes area (first :: rest) = [mergedShape first rest] := by
  unfold merge_similar_shapes
  rw [List.length_cons, List.range_eq_range', List.range'_succ]
  simp only [List.foldl_cons]
  have hfxn : first.xml.isNone = false := by
    cases h : first.xml with
    | none => rw [h] at hfx; simp at hfx
    | some v => simp
  have hstep0 : outerStep area (first :: rest, []) 0 =
      (mergedShape first rest :: rest.map nulledShape,
        rest.map (fun s => s.name)) := by
    simp only [outerStep, List.get?_cons_zero, hfxn]
    rw [if_neg (by simp)]
    rw [List.set_cons_zero, hrefine]
    rw [List.length_cons, List.range_eq_range', List.range'_succ]
    simp only [List.foldl_cons]
    have hinner0 : innerStep 0 (first :: rest, []) 0 = (first :: rest, []) := by
      simp only [innerStep, List.get?_cons_zero]
      rw [if_pos (by simp)]
    rw [hinner0]
    have := innerFold_merge first rest [] [] hx hs hn
    simp only [List.length_nil, List.map_nil, List.nil_append,
      List.append_nil, Nat.zero_add] at this
    rw [show mergedShape first [] = first by simp [mergedShape]] at this
    exact this
  rw [hstep0]
  have hskip : ∀ i ∈ List.range' 1 rest.length,
      ∃ s, ((mergedShape first rest :: rest.map nulledShape,
        rest.map (fun s => s.name)) :
          List SlideShapeData × List String).1.get? i = some s ∧ s.xml = none := by
    intro i hi
    rw [List.mem_range'_1] at hi
    obtain ⟨h1i, h2i⟩ := hi
    obtain ⟨k, rfl⟩ : ∃ k, i = k + 1 := ⟨i - 1, by omega⟩
    have hk2 : k < rest.length := by omega
    refine ⟨nulledShape rest[k], ?_, rfl⟩
    rw [List.get?_cons_succ, List.get?_eq_getElem?, List.getElem?_map,
      List.getElem?_eq_getElem hk2]
    rfl
  rw [outerFold_skip area _ _ hskip]
  have hhead : ((rest.map (fun s => s.name)).contains
      (mergedShape first rest).name) = false := by
    have : (mergedShape first rest).name ∉ rest.map (fun s => s.name) := by
      intro hmem
      obtain ⟨s, hsm, hse⟩ := List.mem_map.mp hmem
      exact hn s hsm (by simpa [mergedShape] using hse)
    simp [this]
  have htail : (rest.map nulledShape).filter
      (fun sd => !((rest.map (fun s => s.name)).contains sd.name)) = [] := by
    rw [List.filter_eq_nil_iff]
    intro a ha
    obtain ⟨s, hsm, rfl⟩ := List.mem_map.mp ha
    have : (nulledShape s).name ∈ rest.map (fun s => s.name) := by
      simpa [nulledShape] using List.mem_map_of_mem (fun s => s.name) hsm
    simp [this]
  simp only [List.filter_cons, hhead, Bool.not_false, if_true, htail]

/-- C6.  `are_same_shape(x, x)` returns `True` for every well-formed
shape XML string (modelled by the parsed tree `etree.fromstring` produces
from it), and in `add_style_from_slide` a run of shape records whose XML
compares equal under `are_same_shape` is merged into exactly one record
whose location list carries all of the `Location` entries in order, with
`xml` and `content_type` taken from the first occurrence.  The hypothesis
`refineContentType area first = first` pins the classification of the
first occurrence: the area-based CONTENT → TITLE/NUMBER refinement,
which the specification describes as the pass preceding deduplication,
leaves it unchanged. -/
theorem are_same_shape_refl_and_dedup :
    (∀ r : Xml, are_same_shape r r = true) ∧
    (∀ (area : Int) (first : SlideShapeData) (rest : List SlideShapeData),
      first.xml.isSome = true →
      (∀ s ∈ rest, s.xml.isSome = true) →
      (∀ s ∈ rest, are_same_shape_opt first.xml s.xml = true) →
      (∀ s ∈ rest, s.name ≠ first.name) →
      refineContentType area first = first →
      merge_similar_shapes area (first :: rest) =
        [{ first with
            location := first.location ++
              (rest.map (fun s => s.location)).join }]) := by
  refine ⟨are_same_shape_refl, ?_⟩
  intro area first rest h1 h2 h3 h4 h5
  exact merge_identical_shapes area first rest h1 h2 h3 h4 h5

/-- Witness for C6: reflexivity on a concrete shape tree, and three
identical shapes at three positions merging into one record carrying the
three rectangles. -/
theorem are_same_shape_refl_and_dedup_witness :
    are_same_shape
      (Xml.elem "p:sp" [] none [Xml.elem "a:t" [] (some "Point") []])
      (Xml.elem "p:sp" [] none [Xml.elem "a:t" [] (some "Point") []]) = true ∧
    merge_similar_shapes 0
      [SlideShapeData.mk "box_0"
        (some (Xml.elem "p:sp" [] none [Xml.elem "a:t" [] (some "Point") []]))
        0 (some "content") none [Location.mk 0 0 100 100],
       SlideShapeData.mk "box_1"
        (some (Xml.elem "p:sp" [] none [Xml.elem "a:t" [] (some "Point") []]))
        1 (some "content") none [Location.mk 0 200 100 100],
       SlideShapeData.mk "box_2"
        (some (Xml.elem "p:sp" [] none [Xml.elem "a:t" [] (some "Point") []]))
        2 (some "content") none [Location.mk 0 400 100 100]] =
      [SlideShapeData.mk "box_0"
        (some (Xml.elem "p:sp" [] none [Xml.elem "a:t" [] (some "Point") []]))
        0 (some "content") none
        [Location.mk 0 0 100 100, Location.mk 0 200 100 100,
         Location.mk 0 400 100 100]] := by
  constructor
  · exact are_same_shape_refl_and_dedup.1 _
  · exact are_same_shape_refl_and_dedup.2 0 _ _ rfl
      (by
        intro s hs
        simp only [List.mem_cons, List.mem_singleton] at hs
        rcases hs with rfl | rfl | h
        · rfl
        · rfl
        · simp at h)
      (by
        intro s hs
        simp only [List.mem_cons, List.mem_singleton] at hs
        rcases hs with rfl | rfl | h
        · exact are_same_shape_refl _
        · exact are_same_shape_refl _
        · simp at h)
      (by
        intro s hs
        simp only [List.mem_cons, List.mem_singleton] at hs
        rcases hs with rfl | rfl | h
        · decide
        · decide
        · simp at h)
      rfl

/-- The `_last_descendant` loop started at the paragraph never
terminates in the corrupted heap: the shared class-level `contents` list
contains the paragraph itself, so `last_child.contents[-1]` is
`last_child` forever, whatever the fuel. -/
theorem lastDescLoop_diverges (fuel : Nat) :
    (lastDescLoop fuel 2).run appendScenarioHeap = .error .fuelExhausted := by
  induction fuel with
  | zero => rfl
  | succ f ih =>
    have hstep : (lastDescLoop (f + 1) 2).run appendScenarioHeap =
        (lastDescLoop f 2).run appendScenarioHeap := rfl
    rw [hstep, ih]

/-- C1.  The pre-order/ownership claim fails on the code:
`Element.contents` is a single class-level list (`elements.py` line 25)
that `setup` never shadows with an instance attribute, so `h1.append(p)`
mutates the `contents` seen by the untouched `h2` (it becomes `[p]`
instead of staying empty); `h2.descendants` then fails instead of
yielding the empty pre-order traversal of `h2`'s empty subtree, because
the `_last_descendant` loop it starts never terminates for any amount of
fuel. -/
theorem element_contents_shared_class_attribute_bug :
    appendScenario.map (fun r => contentsView r.2 1) = .ok [2] ∧
    descendantsScenario 5 = .error .fuelExhausted ∧
    ∀ fuel : Nat,
      (lastDescLoop fuel 2).run appendScenarioHeap = .error .fuelExhausted := by
  refine ⟨rfl, rfl, lastDescLoop_diverges⟩

/-- C2.  The parse-never-raises claim fails on the code: parsing the
single ATX heading line leads `_parse_heading_action` to assign
`cur_heading.element_text_source`, which is a getter-only property of
`Heading`, so the parser raises `AttributeError` instead of terminating
normally. -/
theorem markdown_parse_heading_attribute_error :
    MarkdownDocument_parse 100 "# A" = .error .attributeError := by
  rfl

/-- C3.  The heading-nesting claim fails on the code for the very input
the specification names: the first line already raises the
`element_text_source` `AttributeError`, so no document with A as main
and B, C, D nested beneath it is ever produced. -/
theorem markdown_parse_nested_headings_attribute_error :
    MarkdownDocument_parse 100 "# A\n## B\n### C\n## D" = .error .attributeError := by
  rfl

/-- C4.  The table-detection claim fails on the code: the separator-cell
regex `^\s*:?-+:\s*$` demands a trailing colon, so the canonical
separator row rejects and no table block is opened for
`"|a|b|"` followed by `"|---|---|"`; a right-aligned separator row
(trailing colons) is what the code actually accepts. -/
theorem table_start_rejects_plain_separator :
    is_markdown_table_start "|a|b|" (some "|---|---|") = false ∧
    is_markdown_table_start "|a|b|" (some "|---:|---:|") = true := by
  constructor
  · rfl
  · rfl

/-- C9.  The number-shape claim fails on the code: a text of the form
`digits + trailing period` is accepted by the detection test exactly as
the claim states, but the subsequent sort key `int(shape["text"])`
omits the period stripping, raises `ValueError`, and `_get_catalog_items`
turns it into `PPTTemplateError("Chapter number must be a number")`
instead of returning the accepted shapes sorted.  (All-digit texts do
come back sorted ascending by value, third conjunct.) -/
theorem catalog_number_shapes_trailing_period_error :
    is_number_shape_text "1." = true ∧
    catalog_number_shapes ["1.", "2"] =
      .error (.templateError "Chapter number must be a number") ∧
    catalog_number_shapes ["02", "1", "hello", "003"] =
      .ok ["1", "02", "003"] := by
  refine ⟨rfl, rfl, rfl⟩

/-- C7.  Catalog overflow: with 5 chapters and a catalog template slide
(index 1) carrying exactly 3 catalog-item slots, `generate_slide`
produces the original catalog slide carrying entries 01-03 for the first
three chapters plus one clone positioned immediately after it (index 2)
carrying entries 04-05 for the remaining chapters (its third, surplus
slot deleted), and returns 2, the index of the final catalog slide.  The
first five conjuncts record that none of the chapter titles itself looks
like a catalog number (for such titles the geometric re-pairing on the
clone, abstracted by the slot model, would not be the identity). -/
theorem catalog_overflow_two_slides :
    is_number_shape_text "Overview" = false ∧
    is_number_shape_text "Methods" = false ∧
    is_number_shape_text "Results" = false ∧
    is_number_shape_text "Discussion" = false ∧
    is_number_shape_text "Conclusion" = false ∧
    catalog_generate_slide 10
      [MSlide.mk 0 [],
       MSlide.mk 1 [CatalogSlot.mk "01" "item one",
         CatalogSlot.mk "02" "item two", CatalogSlot.mk "03" "item three"],
       MSlide.mk 2 [], MSlide.mk 3 [], MSlide.mk 4 []]
      5 ["Overview", "Methods", "Results", "Discussion", "Conclusion"] 1 1 =
      .ok ([MSlide.mk 0 [],
            MSlide.mk 1 [CatalogSlot.mk "01" "Overview",
              CatalogSlot.mk "02" "Methods", CatalogSlot.mk "03" "Results"],
            MSlide.mk 5 [CatalogSlot.mk "04" "Discussion",
              CatalogSlot.mk "05" "Conclusion"],
            MSlide.mk 2 [], MSlide.mk 3 [], MSlide.mk 4 []],
           6, 2) := by
  exact ⟨rfl, rfl, rfl, rfl, rfl, rfl⟩

/-- Counterexample for C10: a successful `generate` run on a 5-slide
template with one chapter ends with the deck
`[cover original, catalog original, home copy, content copy, end copy]`
(slide ids `[0, 1, 5, 6, 7]`): the cover and catalog template slides —
written in place, never cloned — are still present, so the claim that
all five originals are deleted is false. -/
theorem pptgen_generate_keeps_cover_and_catalog_originals :
    (pptgen_generate
      [MSlide.mk 0 [], MSlide.mk 1 [CatalogSlot.mk "01" "chapter slot"],
       MSlide.mk 2 [], MSlide.mk 3 [], MSlide.mk 4 []]
      5 ["Introduction"] 1).map (fun d => d.map MSlide.sid) =
      .ok [0, 1, 5, 6, 7] := by
  rfl

/-- Helper: sorting the three consecutive cleanup indices in Python's
`reverse=True` order. -/
theorem sortDescNat_consecutive (k : Nat) :
    sortDescNat [k + 1, k + 2, k + 3] = [k + 3, k + 2, k + 1] := by
  simp [sortDescNat, insertDesc, Nat.add_le_add_iff_left]

/-- Helper: erasing the last index of a length-(m+1) prefix. -/
theorem erase_take_step {α : Type} (d tail' : List α) (m : Nat)
    (hm : m + 1 ≤ d.length) :
    (d.take (m + 1) ++ tail').eraseIdx m = d.take m ++ tail' := by
  rw [List.eraseIdx_eq_take_drop_succ]
  rw [List.take_append_of_le_length (by
    rw [List.length_take]
    omega)]
  rw [List.take_take]
  rw [List.drop_append_of_le_length (by
    rw [List.length_take]
    omega)]
  have hdrop : (d.take (m + 1)).drop (m + 1) = [] := by simp
  rw [hdrop]
  have hmin : m ⊓ (m + 1) = m := by omega
  rw [hmin]
  simp

/-- C10 (amended).  `PPTGen.generate` deletes exactly the chapter-home,
chapter-content and end template slides — the three slides following the
last catalog slide — processing the indices in decreasing order; every
slide before them, in particular the cover slide (index 0) and the
catalog slide(s), survives.  (`_cleanup_template_slides` is called with
`[catalog_last_index + 1, catalog_last_index + 2, catalog_last_index + 3]`
only, `pptgen.py` lines 82-84.) -/
theorem cleanup_deletes_exactly_home_content_end (deck : List MSlide) (k : Nat)
    (h : k + 4 ≤ deck.length) :
    cleanup_template_slides deck [k + 1, k + 2, k + 3] =
      deck.take (k + 1) ++ deck.drop (k + 4) := by
  unfold cleanup_template_slides
  rw [sortDescNat_consecutive]
  simp only [List.foldl_cons, List.foldl_nil, remove_slide]
  have e1 : deck.eraseIdx (k + 3) = deck.take (k + 3) ++ deck.drop (k + 4) := by
    rw [List.eraseIdx_eq_take_drop_succ]
  have e2 : (deck.take (k + 3) ++ deck.drop (k + 4)).eraseIdx (k + 2) =
      deck.take (k + 2) ++ deck.drop (k + 4) :=
    erase_take_step deck _ (k + 2) (by omega)
  have e3 : (deck.take (k + 2) ++ deck.drop (k + 4)).eraseIdx (k + 1) =
      deck.take (k + 1) ++ deck.drop (k + 4) :=
    erase_take_step deck _ (k + 1) (by omega)
  rw [e1, e2, e3]

/-- Witness for the amended C10 on a concrete 8-slide deck with the
catalog ending at index 1. -/
theorem cleanup_deletes_exactly_home_content_end_witness :
    1 + 4 ≤ ([MSlide.mk 0 [], MSlide.mk 1 [], MSlide.mk 2 [], MSlide.mk 3 [],
      MSlide.mk 4 [], MSlide.mk 5 [], MSlide.mk 6 [], MSlide.mk 7 []] :
        List MSlide).length ∧
    cleanup_template_slides
      [MSlide.mk 0 [], MSlide.mk 1 [], MSlide.mk 2 [], MSlide.mk 3 [],
       MSlide.mk 4 [], MSlide.mk 5 [], MSlide.mk 6 [], MSlide.mk 7 []]
      [1 + 1, 1 + 2, 1 + 3] =
      [MSlide.mk 0 [], MSlide.mk 1 [], MSlide.mk 5 [], MSlide.mk 6 [],
       MSlide.mk 7 []] :=
  ⟨by decide,
    cleanup_deletes_exactly_home_content_end
      [MSlide.mk 0 [], MSlide.mk 1 [], MSlide.mk 2 [], MSlide.mk 3 [],
       MSlide.mk 4 [], MSlide.mk 5 [], MSlide.mk 6 [], MSlide.mk 7 []]
      1 (by decide)⟩

/-- C8.  Count-mismatch behaviour of `ChapterContentPage.generate_slide`
for a chapter with two sub-sections against a style whose CONTENT shape
carries three locations (preceded, as in any real style, by a decorative
background shape of lower z-order).  As wired, the first
`add_shape_by_xml` call dies on the unexpected `location=` keyword
before the CONTENT shape is reached; against the intended signature the
generation aborts with the `PPTGenError` carrying the counts 2 and 3,
and no shape of the mismatched kind is ever inserted. -/
theorem chapter_content_count_mismatch_behaviour :
    ChapterContent_generate_slide add_shape_by_xml_wired (fun _ => .ok ())
      [("Point A", "text A"), ("Point B", "text B")]
      [("bg_0", CShape.mk (some "<p:sp/>") 0 none none [Location.mk 0 0 1 1]),
       ("content_1", CShape.mk (some "<p:sp/>") 1 (some "content") none
         [Location.mk 0 0 1 1, Location.mk 0 2 1 1, Location.mk 0 4 1 1])] =
      .error (.genError "TypeError: unexpected keyword argument location") ∧
    ChapterContent_generate_slide add_shape_by_xml_intended (fun _ => .ok ())
      [("Point A", "text A"), ("Point B", "text B")]
      [("bg_0", CShape.mk (some "<p:sp/>") 0 none none [Location.mk 0 0 1 1]),
       ("content_1", CShape.mk (some "<p:sp/>") 1 (some "content") none
         [Location.mk 0 0 1 1, Location.mk 0 2 1 1, Location.mk 0 4 1 1])] =
      .error (.contentCountMismatch 2 3) := by
  exact ⟨rfl, rfl⟩

end SlideGen
